import Mathlib

/-!
Verification development for the AI tutoring runtime backend.

Shallow embedding of the core session/learner-model/whiteboard logic of the
`ai_tutor` backend (skills `update_user_model`, `evaluate_quiz`, `draw_mcq_actions`,
`draw_text`, the layout allocator, the deterministic answer-evaluation path of the
WebSocket turn loop, assistant-message persistence, the planner DAG query, the
session-analyzer claim protocol and the ephemeral-object garbage collector),
together with theorems settling the specification claims about them.

Conventions of the embedding:
* Python dicts keyed by strings are modelled as insertion-ordered association lists.
* Timestamps (`datetime.now`, `time.time()*1000`) are threaded as explicit `Nat`
  parameters; their only use in the modelled code is storage and order comparison.
* Python string truthiness (`x or y`) is modelled by `orStr` / `orOptStr`.
* Fallible code returns `Except`; raising maps to the `.error` constructor.
-/

namespace Tutor

/-- The interaction outcomes accepted by `update_user_model`
(the `Literal` in `UpdateUserModelArgs`, update_user_model.py line 17). -/
inductive Outcome
  | correct
  | incorrect
  | unsure
  | clarification_needed
  | explained
deriving DecidableEq, Repr

/-- The string tag stored for an outcome (Python stores the literal string). -/
def Outcome.toStr : Outcome → String
  | .correct => "correct"
  | .incorrect => "incorrect"
  | .unsure => "unsure"
  | .clarification_needed => "clarification_needed"
  | .explained => "explained"

/-- `UserConceptMastery` (core_models.py lines 5-12): Beta(α,β) mastery record. -/
structure UserConceptMastery where
  alpha : Nat := 1
  beta : Nat := 1
  last_interaction_outcome : Option String := none
  attempts : Nat := 0
  confusion_points : List String := []
  last_accessed : Option Nat := none
deriving DecidableEq, Repr

/-- Posterior mean mastery probability α/(α+β) (core_models.py lines 14-17). -/
def UserConceptMastery.mastery (c : UserConceptMastery) : Rat :=
  (c.alpha : Rat) / ((c.alpha : Rat) + (c.beta : Rat))

/-- Total observations α+β (core_models.py lines 19-22). -/
def UserConceptMastery.confidence (c : UserConceptMastery) : Nat :=
  c.alpha + c.beta

/-- `UserModelState` (core_models.py lines 24-37), restricted to the fields the
modelled operations read or write. `concepts` is a Python dict keyed by topic,
modelled as an insertion-ordered association list. -/
structure UserModelState where
  concepts : List (String × UserConceptMastery) := []
  current_topic : Option String := none
  pending_interaction_type : Option String := none
deriving DecidableEq, Repr

/-- Dict lookup `state.concepts.get(topic)`. -/
def lookupConcept : List (String × UserConceptMastery) → String → Option UserConceptMastery
  | [], _ => none
  | p :: rest, t => if p.1 == t then some p.2 else lookupConcept rest t

/-- Dict assignment `state.concepts[topic] = v` (insertion order preserved,
key appended when new). -/
def setConcept : List (String × UserConceptMastery) → String → UserConceptMastery →
    List (String × UserConceptMastery)
  | [], t, v => [(t, v)]
  | p :: rest, t, v => if p.1 == t then (t, v) :: rest else p :: setConcept rest t v

/-- Python string truthiness for `a or b` on strings. -/
def orStr (a b : String) : String := if a = "" then b else a

/-- Python truthiness for `a or b` where `a` is an optional string. -/
def orOptStr (a : Option String) (b : String) : String :=
  match a with
  | some s => if s = "" then b else s
  | none => b

/-- Python truthiness of an optional string (`if s:`): `none` and `""` are falsy. -/
def truthyStr : Option String → Option String
  | some s => if s = "" then none else some s
  | none => none

/-- `update_user_model` (update_user_model.py lines 26-96), as a pure function of the
user-model state. The wall-clock timestamp is the explicit `now` parameter. The
`outcome` argument ranges over the validated `Literal`, so the "unhandled outcome"
branch of the source (which performs no α/β/attempts update) is unreachable here. -/
def update_user_model (st : UserModelState) (topic : String) (outcome : Outcome)
    (details : Option String) (now : Nat) : UserModelState :=
  let c0 := (lookupConcept st.concepts topic).getD {}
  let c1 :=
    match outcome with
    | .correct => { c0 with alpha := c0.alpha + 1, attempts := c0.attempts + 1 }
    | .incorrect =>
        let cp :=
          match details with
          | some d =>
              if d ≠ "" then
                if d ∉ c0.confusion_points then c0.confusion_points ++ [d]
                else c0.confusion_points
              else c0.confusion_points
          | none => c0.confusion_points
        { c0 with beta := c0.beta + 1, attempts := c0.attempts + 1, confusion_points := cp }
    | .explained => { c0 with attempts := c0.attempts + 1 }
    | .clarification_needed => { c0 with attempts := c0.attempts + 1 }
    | .unsure => { c0 with attempts := c0.attempts + 1 }
  let c2 := { c1 with last_interaction_outcome := some outcome.toStr,
                      last_accessed := some now }
  { st with concepts := setConcept st.concepts topic c2, current_topic := some topic }

/-! ## Concrete instances and auxiliary definitions used by the theorems -/

/-- The concept record stored for `topic`, defaulting to a fresh record. -/
def conceptOr (st : UserModelState) (topic : String) : UserConceptMastery :=
  (lookupConcept st.concepts topic).getD {}

/-- `QuizQuestion` (agents/models.py lines 17-23). `correct_answer_index` is a raw
Python int, hence `Int`. -/
structure QuizQuestion where
  question : String
  options : List String
  correct_answer_index : Int
  explanation : String
  difficulty : String
  related_section : String
deriving DecidableEq, Repr

/-- The metadata sub-dict of a canvas object spec, restricted to the keys the
modelled skills write or the modelled loops read. -/
structure SpecMeta where
  source : Option String := none
  role : Option String := none
  question_id : Option String := none
  option_id : Option Int := none
  groupId : Option String := none
  expiresAt : Option Nat := none
  bbox : Option (Int × Int × Int × Int) := none
deriving DecidableEq, Repr

/-- A canvas object spec dict. Absent dict keys are `none`; zone-relative
placement uses exact rational percentages. -/
structure ObjectSpec where
  id : String
  kind : Option String := none
  x : Option Int := none
  y : Option Int := none
  xPct : Option Rat := none
  yPct : Option Rat := none
  widthPct : Option Rat := none
  heightPct : Option Rat := none
  width : Option Int := none
  radius : Option Int := none
  fontSize : Option Int := none
  strokeWidth : Option Int := none
  text : Option String := none
  fill : Option String := none
  stroke : Option String := none
  metadata : Option SpecMeta := none
deriving DecidableEq, Repr

/-- Whiteboard actions produced by the modelled paths. -/
inductive WBAction
  | ADD_OBJECTS (objects : List ObjectSpec)
  | UPDATE_OBJECTS (objects : List ObjectSpec)
deriving DecidableEq, Repr

/-- A named zone: normalized rect in `[0,1]` percentages. -/
structure ZoneCoords where
  xPct : Rat
  yPct : Rat
  widthPct : Rat
  heightPct : Rat
deriving DecidableEq, Repr

/-- `resolve_zone` over the static `_LAYOUT_TEMPLATES` table
(layout_templates.py lines 9-52). -/
def resolve_zone : String → String → Option ZoneCoords
  | "default_board", "question_area" => some ⟨5/100, 5/100, 90/100, 20/100⟩
  | "default_board", "options_area" => some ⟨5/100, 30/100, 90/100, 40/100⟩
  | "default_board", "explanation_area" => some ⟨5/100, 75/100, 90/100, 20/100⟩
  | "default_board", "side_panel_top" => some ⟨75/100, 5/100, 20/100, 40/100⟩
  | "default_board", "side_panel_bottom" => some ⟨75/100, 50/100, 20/100, 45/100⟩
  | "default_board", "center_large" => some ⟨20/100, 20/100, 60/100, 60/100⟩
  | "default_board", "full_width_top_banner" => some ⟨0, 0, 1, 10/100⟩
  | "default_board", "full_width_bottom_banner" => some ⟨0, 90/100, 1, 10/100⟩
  | "default_board", "alt_question_spot" => some ⟨5/100, 70/100, 40/100, 25/100⟩
  | "two_column_equal", "left_column" => some ⟨2/100, 2/100, 47/100, 96/100⟩
  | "two_column_equal", "right_column" => some ⟨51/100, 2/100, 47/100, 96/100⟩
  | _, _ => none

/-- `math.ceil(a / b)` for natural `a` and positive natural `b`. -/
def ceilDiv (a b : Nat) : Nat := (a + b - 1) / b

/-- Anchor bbox already converted to grid coordinates
(`col_start, row_start, cols_span, rows_span`). -/
structure AnchorBBoxGrid where
  col_start : Nat
  row_start : Nat
  cols_span : Nat
  rows_span : Nat
deriving DecidableEq, Repr

/-- `AnchorPlacement` literal (layout_allocator.py line 41). -/
inductive AnchorPlacement
  | right_of
  | below
deriving DecidableEq, Repr

/-- `_GridAllocator` state (layout_allocator.py lines 47-60). The cell matrix
`_grid[row][col]` is modelled as a total function from (row, col) to the
occupying region id. Defaults are the module constants (4×12 cells of 220×140). -/
structure GridAllocator where
  cols : Nat := 4
  rows : Nat := 12
  cell_w : Nat := 220
  cell_h : Nat := 140
  grid : Nat → Nat → Option String := fun _ _ => none
  regions : List (String × List (Nat × Nat)) := []

/-- `_block_free` (layout_allocator.py lines 151-156). -/
def blockFree (g : Nat → Nat → Option String) (start_col start_row cols_needed rows_needed : Nat) :
    Bool :=
  (List.range rows_needed).all fun dr =>
    (List.range cols_needed).all fun dc => g (start_row + dr) (start_col + dc) == none

/-- The cell function after `_occupy_block` marks a block with `region_id`. -/
def occupyBlock (g : Nat → Nat → Option String) (rid : String)
    (start_col start_row cols_needed rows_needed : Nat) : Nat → Nat → Option String :=
  fun r c =>
    if start_row ≤ r ∧ r < start_row + rows_needed ∧ start_col ≤ c ∧ c < start_col + cols_needed
    then some rid else g r c

/-- The cell list recorded by `_occupy_block` in `_regions` (row-major (r, c) pairs). -/
def blockCells (start_col start_row cols_needed rows_needed : Nat) : List (Nat × Nat) :=
  (List.range rows_needed).flatMap fun dr =>
    (List.range cols_needed).map fun dc => (start_row + dr, start_col + dc)

/-- `_allocate_and_return` (layout_allocator.py lines 133-139): occupies the block and
returns `(x_px, y_px, alloc_w, alloc_h, region_id)` together with the new state. -/
def allocateAndReturn (a : GridAllocator) (rid : String) (col row cols_needed rows_needed : Nat) :
    Option (Nat × Nat × Nat × Nat × String) × GridAllocator :=
  (some (col * a.cell_w, row * a.cell_h, cols_needed * a.cell_w, rows_needed * a.cell_h, rid),
   { a with grid := occupyBlock a.grid rid col row cols_needed rows_needed,
            regions := a.regions ++ [(rid, blockCells col row cols_needed rows_needed)] })

/-- The row-major candidate enumeration of the flow scan: `(r, c)` for
`r in range(rows - rows_needed + 1)`, `c in range(cols - cols_needed + 1)`. -/
def rowMajor (rn cn : Nat) : List (Nat × Nat) :=
  (List.range rn).flatMap fun r => (List.range cn).map fun c => (r, c)

/-- The flow strategy scan (layout_allocator.py lines 124-131): first free block
in row-major order. -/
def findFlow (a : GridAllocator) (cols_needed rows_needed : Nat) : Option (Nat × Nat) :=
  (rowMajor (a.rows - rows_needed + 1) (a.cols - cols_needed + 1)).find? fun rc =>
    blockFree a.grid rc.2 rc.1 cols_needed rows_needed

/-- The anchored scan of `reserve` for one entry of `target_searches`
(layout_allocator.py lines 101-119). `row-major` scans row offsets within the
anchor height span at a fixed column; `col-major` scans column offsets within
the anchor width span at a fixed row; the Python `break` on exceeding the board
is the `takeWhile`. -/
def anchorScan (a : GridAllocator) (cols_needed rows_needed : Nat) :
    AnchorBBoxGrid → AnchorPlacement → Option (Nat × Nat)
  | ab, .right_of =>
      let start_search_col := ab.col_start + ab.cols_span
      let start_search_row := ab.row_start
      if start_search_col + cols_needed ≤ a.cols ∧ start_search_row + rows_needed ≤ a.rows then
        (((List.range ab.rows_span).takeWhile fun ro =>
            start_search_row + ro + rows_needed ≤ a.rows).find? fun ro =>
          blockFree a.grid start_search_col (start_search_row + ro) cols_needed rows_needed).map
          fun ro => (start_search_row + ro, start_search_col)
      else none
  | ab, .below =>
      let start_search_col := ab.col_start
      let start_search_row := ab.row_start + ab.rows_span
      if start_search_row + rows_needed ≤ a.rows ∧ start_search_col + cols_needed ≤ a.cols then
        (((List.range ab.cols_span).takeWhile fun co =>
            start_search_col + co + cols_needed ≤ a.cols).find? fun co =>
          blockFree a.grid (start_search_col + co) start_search_row cols_needed rows_needed).map
          fun co => (start_search_row, start_search_col + co)
      else none

/-- `_GridAllocator.reserve` (layout_allocator.py lines 66-131). The freshly drawn
`uuid4` region id is the explicit `rid` parameter. Returns the placement (or `none`)
and the possibly-updated allocator. -/
def GridAllocator.reserve (a : GridAllocator) (width height : Nat) (rid : String)
    (anchor_bbox_grid : Option AnchorBBoxGrid) (anchor_placement : Option AnchorPlacement) :
    Option (Nat × Nat × Nat × Nat × String) × GridAllocator :=
  let cols_needed := max 1 (ceilDiv width a.cell_w)
  let rows_needed := max 1 (ceilDiv height a.cell_h)
  if cols_needed > a.cols ∨ rows_needed > a.rows then (none, a)
  else
    match anchor_bbox_grid, anchor_placement with
    | some ab, some pl =>
        match anchorScan a cols_needed rows_needed ab pl with
        | some (r, c) => allocateAndReturn a rid c r cols_needed rows_needed
        | none => (none, a)
    | _, _ =>
        match findFlow a cols_needed rows_needed with
        | some (r, c) => allocateAndReturn a rid c r cols_needed rows_needed
        | none => (none, a)

/-- The placement dict returned by the `reserve_region` coroutine. -/
structure Placement where
  x : Nat
  y : Nat
  width : Nat
  height : Nat
  regionId : String
  groupId : Option String := none
deriving DecidableEq, Repr

/-- `reserve_region` with `strategy="flow"` (layout_allocator.py lines 192-244),
acting on an explicit allocator state (the per-session registry lookup is outside
the model). The `groupId` key is echoed only when `group_id` is truthy. -/
def reserve_region_flow (a : GridAllocator) (requested_width requested_height : Nat)
    (rid : String) (group_id : Option String) : Option Placement × GridAllocator :=
  match a.reserve requested_width requested_height rid none none with
  | (none, a2) => (none, a2)
  | (some (x, y, w, h, r), a2) =>
      (some { x := x, y := y, width := w, height := h, regionId := r,
              groupId := truthyStr group_id }, a2)

/-- Errors raised by the drawing path (`ValueError` / `RuntimeError`). -/
inductive DrawErr
  | valueError (msg : String)
  | runtimeError (msg : String)
deriving DecidableEq, Repr

/-- The option-letter label `chr(65 + i)`. -/
def optionLetter (i : Nat) : String := (Char.ofNat (65 + i)).toString

/-- The zone-relative option specs of `draw_mcq_actions` (draw_mcq.py lines 79-104):
per option a radio circle and a text label, accumulating `current_y_offset_pct`. -/
def mcqZoneOptionSpecs (question_id : String) (base_x_pct base_y_pct zone_width_pct : Rat)
    (single_option_total_h_pct single_option_draw_h_pct : Rat) :
    List String → Nat → Rat → List ObjectSpec
  | [], _, _ => []
  | option_text :: rest, i, yOff =>
      let option_y_pct := base_y_pct + yOff
      { id := "mcq-" ++ question_id ++ "-opt-" ++ toString i ++ "-radio",
        kind := some "circle",
        xPct := some (base_x_pct + zone_width_pct * (2/100)),
        yPct := some (option_y_pct + single_option_draw_h_pct / 2),
        radius := some 8,
        stroke := some "#555555", strokeWidth := some 1, fill := some "#FFFFFF",
        metadata := some { source := some "assistant", role := some "option_selector",
                           question_id := some question_id, option_id := some (Int.ofNat i),
                           groupId := some question_id } } ::
      { id := "mcq-" ++ question_id ++ "-opt-" ++ toString i ++ "-text",
        kind := some "text",
        text := some (optionLetter i ++ ". " ++ option_text),
        xPct := some (base_x_pct + zone_width_pct * (5/100)),
        yPct := some option_y_pct,
        widthPct := some (zone_width_pct * (1 - 5/100)),
        heightPct := some single_option_draw_h_pct,
        fontSize := some 16, fill := some "#333333",
        metadata := some { source := some "assistant", role := some "option_label",
                           question_id := some question_id, option_id := some (Int.ofNat i),
                           groupId := some question_id } } ::
      mcqZoneOptionSpecs question_id base_x_pct base_y_pct zone_width_pct
        single_option_total_h_pct single_option_draw_h_pct rest (i + 1)
        (yOff + single_option_total_h_pct)

/-- The zone-placement branch of `draw_mcq_actions` (draw_mcq.py lines 51-106). -/
def mcqZoneSpecs (question : QuizQuestion) (question_id : String) (zc : ZoneCoords) :
    List ObjectSpec :=
  let base_x_pct := zc.xPct
  let base_y_pct := zc.yPct
  let zone_width_pct := zc.widthPct
  let zone_height_pct := zc.heightPct
  let num_options := question.options.length
  let single_option_total_h_pct :=
    if num_options > 0 then (zone_height_pct * (1 - 30/100)) / (num_options : Rat) else 0
  let single_option_draw_h_pct := min single_option_total_h_pct (zone_height_pct * (15/100))
  { id := "mcq-" ++ question_id ++ "-text",
    kind := some "text",
    text := some question.question,
    xPct := some base_x_pct, yPct := some base_y_pct,
    widthPct := some zone_width_pct,
    heightPct := some (zone_height_pct * (25/100)),
    fontSize := some 18, fill := some "#000000",
    metadata := some { source := some "assistant", role := some "question",
                       question_id := some question_id, groupId := some question_id } } ::
  mcqZoneOptionSpecs question_id base_x_pct base_y_pct zone_width_pct
    single_option_total_h_pct single_option_draw_h_pct question.options 0
    (zone_height_pct * (30/100))

/-- The allocator-placed option specs of `draw_mcq_actions` (draw_mcq.py lines 155-192):
per option a radio circle and a text label, `current_y` advancing by `OPTION_SPACING`. -/
def mcqOptionSpecs (question_id : String) (question_x : Nat) :
    List String → Nat → Nat → List ObjectSpec
  | [], _, _ => []
  | option_text :: rest, i, current_y =>
      { id := "mcq-" ++ question_id ++ "-opt-" ++ toString i ++ "-radio",
        kind := some "circle",
        x := some (Int.ofNat (question_x + 20)),
        y := some (Int.ofNat (current_y + 8)),
        radius := some 8,
        stroke := some "#555555", strokeWidth := some 1, fill := some "#FFFFFF",
        metadata := some { source := some "assistant", role := some "option_selector",
                           question_id := some question_id, option_id := some (Int.ofNat i),
                           groupId := some question_id } } ::
      { id := "mcq-" ++ question_id ++ "-opt-" ++ toString i ++ "-text",
        kind := some "text",
        x := some (Int.ofNat (question_x + 20 + 25)),
        y := some (Int.ofNat (current_y + 8)),
        text := some (optionLetter i ++ ". " ++ option_text),
        fontSize := some 16, fill := some "#333333",
        metadata := some { source := some "assistant", role := some "option_label",
                           question_id := some question_id, option_id := some (Int.ofNat i),
                           groupId := some question_id } } ::
      mcqOptionSpecs question_id question_x rest (i + 1) (current_y + 40)

/-- The allocator-fallback branch of `draw_mcq_actions` (draw_mcq.py lines 110-194):
`QUESTION_WIDTH = 700`, `block_height = 100 + n*40 + 20`, question text at the reserved
placement, options starting at `y + 50`. -/
def mcqFallback (question : QuizQuestion) (question_id : String) (alloc : GridAllocator)
    (ridFresh : String) : Except DrawErr (List ObjectSpec) × GridAllocator :=
  let block_height := 100 + question.options.length * 40 + 20
  match reserve_region_flow alloc 700 block_height ridFresh (some question_id) with
  | (none, a2) => (.error (.runtimeError "draw_mcq_actions: allocator returned no space"), a2)
  | (some placement, a2) =>
      let question_x := placement.x
      let question_y := placement.y
      (.ok
        ({ id := "mcq-" ++ question_id ++ "-text",
           kind := some "text",
           x := some (Int.ofNat question_x), y := some (Int.ofNat question_y),
           text := some question.question,
           fontSize := some 18, fill := some "#000000",
           width := some 700,
           metadata := some { source := some "assistant", role := some "question",
                              question_id := some question_id,
                              groupId := some question_id } } ::
         mcqOptionSpecs question_id question_x question.options 0 (question_y + 50)),
       a2)

/-- `draw_mcq_actions` (draw_mcq.py lines 11-194). `question_id_arg` is
`kwargs.get("question_id") or "q1"`; the zone branch is taken when template and zone
names are truthy and resolve, otherwise the allocator fallback runs. The `ValueError`
for a missing question cannot arise here because `question` is typed. -/
def draw_mcq_actions (question : QuizQuestion) (question_id_arg : Option String)
    (template_name zone_name : Option String) (alloc : GridAllocator) (ridFresh : String) :
    Except DrawErr (List ObjectSpec) × GridAllocator :=
  let question_id := orOptStr question_id_arg "q1"
  match truthyStr template_name, truthyStr zone_name with
  | some tn, some zn =>
      match resolve_zone tn zn with
      | some zc => (.ok (mcqZoneSpecs question question_id zc), alloc)
      | none => mcqFallback question question_id alloc ridFresh
  | _, _ => mcqFallback question question_id alloc ridFresh

/-- `uuid.uuid5(namespace, name)` is a pure deterministic function of its two
arguments (RFC 4122 name-based UUID); the hash itself is irrelevant to the claims,
so it is modelled as an injective deterministic encoding of the pair. -/
def uuid5 (ns name : String) : String := ns ++ ":" ++ name

/-- `ASSISTANT_DRAWING_NAMESPACE` (drawing_tools.py line 66). -/
def ASSISTANT_DRAWING_NAMESPACE : String := "a1e5a97a-7278-47ce-861d-80971e00de60"

/-- `_PALETTE` lookup with `"default"` fallback (`style_token`,
drawing_tools.py lines 39-113). -/
def styleToken : String → String
  | "primary" => "#1976D2"
  | "accent" => "#FF5722"
  | "muted" => "#9E9E9E"
  | "success" => "#2ECC71"
  | "error" => "#E74C3C"
  | _ => "#000000"

/-- `DrawTextArgs` (drawing_tools.py lines 71-79), color token as its literal string. -/
structure DrawTextArgs where
  id : Option String := none
  text : String
  x : Option Int := none
  y : Option Int := none
  fontSize : Option Int := none
  width : Option Int := none
  color_token : String := "default"
deriving DecidableEq, Repr

/-- `draw_text` (drawing_tools.py lines 350-413): deterministic id via UUIDv5 of
`"text-{text}-{color_token}"` when the caller supplies no (truthy) id; coordinates
fall back to the `_get_layout_position` stub `(100, 100)`; `fontSize`/`width` keys
are included only when truthy; metadata carries source and bbox. -/
def draw_text (args : DrawTextArgs) : ObjectSpec :=
  let object_id :=
    match truthyStr args.id with
    | some i => i
    | none =>
        uuid5 ASSISTANT_DRAWING_NAMESPACE ("text-" ++ args.text ++ "-" ++ args.color_token)
  let xy : Int × Int :=
    match args.x, args.y with
    | some x, some y => (x, y)
    | _, _ => (100, 100)
  let final_width := args.width.getD 100
  let final_height := args.fontSize.getD 20
  let fill_colour := styleToken args.color_token
  { id := object_id,
    kind := some "text",
    x := some xy.1, y := some xy.2,
    text := some args.text,
    fontSize := match args.fontSize with
                | some n => if n ≠ 0 then some n else none
                | none => none,
    width := match args.width with
             | some n => if n ≠ 0 then some n else none
             | none => none,
    fill := some fill_colour,
    metadata := some { source := some "assistant",
                       bbox := some (xy.1, xy.2, final_width, final_height) } }

/-- The `data` dict of a client `answer` event (absent keys are `none`; a non-dict
`data` value is modelled as the all-`none` record, matching `answer_data = {}`). -/
structure AnswerData where
  answer_index : Option Int := none
  question_id : Option String := none
deriving DecidableEq, Repr

/-- The `content` string of a history item, as the turn loop re-parses it:
either plain non-JSON text, a parsed client event object with a `type` and
optional `data` dict, or a serialized assistant tool-call JSON. -/
inductive MsgContent
  | plain (s : String)
  | event (etype : String) (data : Option AnswerData)
  | toolCall (name : String)
deriving DecidableEq, Repr

/-- One history entry (a role/content dict). -/
structure HistoryItem where
  role : String
  content : MsgContent
deriving DecidableEq, Repr

/-- `TutorContext` (context.py lines 68-108), restricted to the fields the modelled
turn paths read or write. -/
structure TutorContext where
  session_id : String
  current_quiz_question : Option QuizQuestion := none
  user_model_state : UserModelState := {}
  history : List HistoryItem := []
  whiteboard_history : List (List WBAction) := []
  last_pedagogical_action : Option String := none
  latest_turn_no : Option Nat := none
  latest_snapshot_index : Option Nat := none
deriving DecidableEq, Repr

/-- Exceptions of the evaluation path. -/
inductive EvalErr
  | toolInputError (msg : String)
  | executorError (msg : String)
deriving DecidableEq, Repr

/-- `QuizFeedbackItem` fields built by `evaluate_quiz` (evaluate_quiz.py lines 132-140). -/
structure QuizFeedbackItem where
  question_index : Nat
  question_text : String
  user_selected_option : String
  is_correct : Bool
  correct_option : String
  explanation : String
  improvement_suggestion : String
deriving DecidableEq, Repr

/-- `FeedbackResponse` restricted to the field populated by the modelled path. -/
structure FeedbackResponse where
  feedback_items : List QuizFeedbackItem
deriving DecidableEq, Repr

/-- Python list indexing `l[i]`, including negative-index wraparound;
`none` models an `IndexError`. -/
def pyIndex (l : List String) (i : Int) : Option String :=
  if 0 ≤ i then l.get? i.toNat
  else if 0 ≤ i + l.length then l.get? (i + l.length).toNat else none

/-- Modelled from the spec: the skill `draw_mcq_feedback(question_id, option_id,
is_correct, num_options)` lives in `ai_tutor/skills/draw_mcq_feedback.py`, which is not
among the provided sources (only its import and call sites are). Per spec §4.4 it
"colors the correct/selected selectors and emits feedback text": modelled as a partial
update spec (no `kind` key) recoloring the selected selector drawn by
`draw_mcq_actions`, plus a short feedback text object. -/
def draw_mcq_feedback (question_id : String) (option_id : Int) (is_correct : Bool)
    (num_options : Nat) : List ObjectSpec :=
  let colour := if is_correct then "#2ECC71" else "#E74C3C"
  [{ id := "mcq-" ++ question_id ++ "-opt-" ++ toString option_id ++ "-radio",
     fill := some colour,
     metadata := some { source := some "assistant", question_id := some question_id } },
   { id := "mcq-" ++ question_id ++ "-feedback-label",
     kind := some "text",
     text := some (if is_correct then "Correct!" else "Incorrect"),
     fill := some colour,
     metadata := some { source := some "assistant", role := some "mcq_feedback_text",
                        question_id := some question_id } }]

/-- Bucket test of the spec partition in `evaluate_quiz` (evaluate_quiz.py
lines 104-110): text/circle/rect/line go to the ADD bucket. -/
def isAddSpec (s : ObjectSpec) : Bool :=
  s.kind == some "text" || s.kind == some "circle" || s.kind == some "rect" ||
    s.kind == some "line"

/-- `evaluate_quiz` (evaluate_quiz.py lines 23-160) as a pure function. `ToolInputError`
covers both the pydantic `ge=0` rejection of a negative index and the explicit bounds
check; a `correct_answer_index` that Python list indexing cannot resolve becomes the
`ExecutorError` of the generic handler. The embedded `QuizQuestion` has no `metadata`
attribute, so the drawing question id is `provided or "q1"`. On success returns the
updated context, the feedback payload and the whiteboard actions (or `none` if empty). -/
def evaluate_quiz (ctx : TutorContext) (user_answer_index : Int)
    (provided_question_id : Option String) (now : Nat) :
    Except EvalErr (TutorContext × FeedbackResponse × Option (List WBAction)) :=
  if user_answer_index < 0 then
    .error (.toolInputError "Invalid arguments for evaluate_quiz")
  else
    match ctx.current_quiz_question with
    | none => .error (.executorError "No valid quiz question found in context to evaluate.")
    | some question =>
        if question.options.length ≤ user_answer_index then
          .error (.toolInputError "Selected answer index is out of bounds for question options")
        else
          let is_correct := user_answer_index == question.correct_answer_index
          match pyIndex question.options user_answer_index,
                pyIndex question.options question.correct_answer_index with
          | some selected_option, some correct_option =>
              let explanation_text := question.explanation
              let improvement_text :=
                if is_correct then "Great work!"
                else "Consider reviewing the explanation and related concepts."
              let drawing_qid := orOptStr provided_question_id "q1"
              let specs0 := draw_mcq_feedback drawing_qid user_answer_index is_correct
                question.options.length
              let block_height := 100 + question.options.length * 40 + 20
              let feedback_y := block_height + 20
              let feedback_spec : ObjectSpec :=
                { id := "mcq-" ++ drawing_qid ++ "-feedback-text",
                  kind := some "text",
                  x := some 0, y := some (Int.ofNat feedback_y),
                  text := some ("Explanation: " ++ explanation_text ++
                    "\n\nSuggestion: " ++ improvement_text),
                  fontSize := some 16, fill := some "#333333", width := some 700,
                  metadata := some { source := some "assistant",
                                     role := some "mcq_feedback_text",
                                     question_id := some drawing_qid,
                                     groupId := some drawing_qid } }
              let specs := specs0 ++ [feedback_spec]
              let add_specs := specs.filter isAddSpec
              let update_specs := (specs.filter fun s => !(isAddSpec s)).map
                fun s => { s with kind := none }
              let whiteboard_actions : List WBAction :=
                (if add_specs ≠ [] then [WBAction.ADD_OBJECTS add_specs] else []) ++
                (if update_specs ≠ [] then [WBAction.UPDATE_OBJECTS update_specs] else [])
              let topic := orStr question.related_section "general"
              let details := "Answered MCQ \x27" ++ question.question.take 50 ++
                "...\x27 with option \x27" ++ selected_option ++ "\x27."
              let st1 := update_user_model ctx.user_model_state topic
                (if is_correct then .correct else .incorrect) (some details) now
              let feedback_item : QuizFeedbackItem :=
                { question_index := 0,
                  question_text := question.question,
                  user_selected_option := selected_option,
                  is_correct := is_correct,
                  correct_option := correct_option,
                  explanation := explanation_text,
                  improvement_suggestion := improvement_text }
              let st2 := { st1 with pending_interaction_type := none }
              let ctx2 := { ctx with user_model_state := st2, current_quiz_question := none }
              .ok (ctx2, { feedback_items := [feedback_item] },
                   if whiteboard_actions = [] then none else some whiteboard_actions)
          | _, _ => .error (.executorError "Failed during quiz evaluation logic: IndexError")

/-- The typed payload of an `InteractionResponseData` envelope, for the content
types the modelled paths emit. -/
inductive RespData
  | message (message_text : String) (message_type : String)
  | feedbackData (fb : FeedbackResponse)
  | errorData (error_message : String) (error_code : String) (technical_details : Option String)
deriving DecidableEq, Repr

/-- `InteractionResponseData` (api_models), restricted to the modelled fields. -/
structure InteractionResponseData where
  content_type : String
  data : RespData
  user_model_state : UserModelState
  whiteboard_actions : Option (List WBAction) := none
deriving DecidableEq, Repr

/-- `send_error_response` (tutor_ws.py lines 138-158): the structured error envelope. -/
def errorEnvelope (state : UserModelState) (message error_code : String)
    (details : Option String) : InteractionResponseData :=
  { content_type := "error",
    data := .errorData message error_code details,
    user_model_state := state }

/-- Result of the deterministic pre-check of `_run_executor_turn`
(tutor_ws.py lines 1192-1270): either exactly one envelope was sent and the turn
ended with the given context (no LLM call), or control falls through to the
LLM-driven executor path. -/
inductive TurnResult
  | sent (env : InteractionResponseData) (ctx2 : TutorContext)
  | llmPath
deriving DecidableEq, Repr

/-- The envelope of a `sent` result. -/
def TurnResult.sentEnv? : TurnResult → Option InteractionResponseData
  | .sent env _ => some env
  | .llmPath => none

/-- The final context of a `sent` result. -/
def TurnResult.sentCtx? : TurnResult → Option TutorContext
  | .sent _ c => some c
  | .llmPath => none

/-- The deterministic answer-evaluation pre-check of `_run_executor_turn`
(tutor_ws.py lines 1195-1270). If the last history entry is a user `answer` event and
a quiz question is pending, the turn bypasses the LLM: a missing `answer_index` sends
`INVALID_ANSWER_FORMAT`; `evaluate_quiz` is invoked and its `ToolInputError` maps to an
`ANSWER_EVAL_INPUT_ERROR` error envelope, any other exception to `ANSWER_EVAL_ERROR`;
on success one `feedback` envelope with the generated whiteboard actions is sent and a
simulated assistant `feedback` tool call is appended to the history. Otherwise the
normal LLM executor path follows (`llmPath`). -/
def run_executor_turn_det (ctx : TutorContext) (now : Nat) : TurnResult :=
  let last_user_event : Option MsgContent :=
    match ctx.history.getLast? with
    | some item => if item.role == "user" then some item.content else none
    | none => none
  match last_user_event, ctx.current_quiz_question with
  | some (.event etype data), some _ =>
      if etype == "answer" then
        let answer_data := data.getD {}
        match answer_data.answer_index with
        | none =>
            .sent (errorEnvelope ctx.user_model_state
              "Answer event missing \x27answer_index\x27." "INVALID_ANSWER_FORMAT" none) ctx
        | some user_answer_index =>
            match evaluate_quiz ctx user_answer_index answer_data.question_id now with
            | .ok (ctx2, feedback_payload, generated_wb_actions) =>
                let env : InteractionResponseData :=
                  { content_type := "feedback",
                    data := .feedbackData feedback_payload,
                    user_model_state := ctx2.user_model_state,
                    whiteboard_actions := generated_wb_actions }
                let ctx3 := { ctx2 with history := ctx2.history ++
                  [{ role := "assistant", content := .toolCall "feedback" }] }
                .sent env ctx3
            | .error (.toolInputError msg) =>
                .sent (errorEnvelope ctx.user_model_state
                  "Error evaluating answer." "ANSWER_EVAL_INPUT_ERROR" (some msg)) ctx
            | .error (.executorError msg) =>
                .sent (errorEnvelope ctx.user_model_state
                  "Unexpected error while evaluating answer." "ANSWER_EVAL_ERROR" (some msg)) ctx
      else .llmPath
  | _, _ => .llmPath

/-- A `whiteboard_snapshots` row. -/
structure SnapshotRow where
  session_id : String
  snapshot_index : Nat
  actions_json : List WBAction
deriving DecidableEq, Repr

/-- A `session_messages` row (payload kept abstract as a presence flag). -/
structure MessageRow where
  session_id : String
  turn_no : Nat
  role : String
  text : String
  payload_attached : Bool := false
  whiteboard_snapshot_index : Option Nat := none
deriving DecidableEq, Repr

/-- `_persist_assistant_message` (tutor_ws.py lines 1398-1438): computes the next turn
number, writes a whiteboard snapshot row (aligned with the turn number) exactly when
the action list is truthy, then writes the assistant message row referencing it, and
advances the context counters. -/
def persist_assistant_message (ctx : TutorContext) (text_summary : String)
    (payload_attached : Bool) (whiteboard_actions : Option (List WBAction)) :
    Option SnapshotRow × MessageRow × TutorContext :=
  let next_turn := ctx.latest_turn_no.getD 0 + 1
  let snapshot_index_val : Option Nat :=
    match whiteboard_actions with
    | some acts => if acts ≠ [] then some next_turn else none
    | none => none
  let snapshot : Option SnapshotRow :=
    match snapshot_index_val with
    | some idx => some { session_id := ctx.session_id, snapshot_index := idx,
                         actions_json := whiteboard_actions.getD [] }
    | none => none
  let row : MessageRow :=
    { session_id := ctx.session_id, turn_no := next_turn, role := "assistant",
      text := text_summary, payload_attached := payload_attached,
      whiteboard_snapshot_index := snapshot_index_val }
  let ctx2 :=
    match snapshot_index_val with
    | some idx => { ctx with latest_turn_no := some next_turn,
                             latest_snapshot_index := some idx }
    | none => { ctx with latest_turn_no := some next_turn }
  (snapshot, row, ctx2)

/-- The arguments of an `ask_question` tool call the branch reads. The
`whiteboard_actions` key an LLM may supply is carried so that the embedding can
state that the branch ignores it. -/
structure AskQuestionArgs where
  question_data : Option QuizQuestion := none
  template : Option String := none
  zone : Option String := none
  topic : Option String := none
  whiteboard_actions : Option (List WBAction) := none
deriving DecidableEq, Repr

/-- Result of the `ask_question` dispatch branch: an error envelope with no state
change, or the chat envelope together with the updated context, the persisted rows
and the updated allocator. -/
inductive AskResult
  | errorSent (env : InteractionResponseData)
  | okSent (env : InteractionResponseData) (ctx3 : TutorContext)
      (snapshot : Option SnapshotRow) (message : Option MessageRow) (alloc2 : GridAllocator)

/-- The envelope of an `AskResult`. -/
def AskResult.envelope : AskResult → InteractionResponseData
  | .errorSent env => env
  | .okSent env _ _ _ _ => env

/-- The final context of a successful `AskResult`. -/
def AskResult.ctx? : AskResult → Option TutorContext
  | .errorSent _ => none
  | .okSent _ c _ _ _ => some c

/-- The persisted message row of a successful `AskResult`. -/
def AskResult.message? : AskResult → Option MessageRow
  | .errorSent _ => none
  | .okSent _ _ _ m _ => m

/-- The persisted snapshot row of a successful `AskResult`. -/
def AskResult.snapshot? : AskResult → Option SnapshotRow
  | .errorSent _ => none
  | .okSent _ _ s _ _ => s

/-- The `ask_question` branch of `_dispatch_tool_call` (tutor_ws.py lines 777-920).
`q_id_for_drawing` is the fresh `str(uuid4())[:8]` drawn by the branch and `ridFresh`
the fresh region id the allocator may draw. The branch always regenerates the MCQ
whiteboard objects through `draw_mcq_actions` (LLM-supplied whiteboard actions are
never read); a drawing failure leaves the spec list empty. It sends one
`content_type="message"` envelope whose whiteboard payload is a single `ADD_OBJECTS`
action (when specs were produced), records it in `whiteboard_history`, stores the
pending question and `last_pedagogical_action="asked"` on the context, and persists
the assistant message. The pydantic-invalid `question_data` branch
(`INVALID_QUESTION_DATA`) is unrepresentable because `question_data` is typed. -/
def dispatch_ask_question (ctx : TutorContext) (args : AskQuestionArgs)
    (q_id_for_drawing : String) (alloc : GridAllocator) (ridFresh : String) : AskResult :=
  match args.question_data with
  | none =>
      .errorSent (errorEnvelope ctx.user_model_state
        "Internal error: Missing question data from LLM." "MISSING_QUESTION_DATA" none)
  | some question_obj =>
      let drawn := draw_mcq_actions question_obj (some q_id_for_drawing)
        args.template args.zone alloc ridFresh
      let final_object_specs : List ObjectSpec :=
        match drawn.1 with
        | .ok specs => specs
        | .error _ => []
      let whiteboard_actions_payload : Option (List WBAction) :=
        if final_object_specs ≠ [] then some [WBAction.ADD_OBJECTS final_object_specs]
        else none
      let topic_for_message :=
        orOptStr args.topic (orStr question_obj.related_section "the current topic")
      let chat_message_text :=
        "I have a question for you on the whiteboard about " ++ topic_for_message ++ "."
      let env : InteractionResponseData :=
        { content_type := "message",
          data := .message chat_message_text "status_update",
          user_model_state := ctx.user_model_state,
          whiteboard_actions := whiteboard_actions_payload }
      let ctx1 :=
        match env.whiteboard_actions with
        | some acts => { ctx with whiteboard_history := ctx.whiteboard_history ++ [acts] }
        | none => ctx
      let ctx2 := { ctx1 with last_pedagogical_action := some "asked",
                              current_quiz_question := some question_obj }
      let persisted := persist_assistant_message ctx2 chat_message_text true
        env.whiteboard_actions
      .okSent env persisted.2.2 persisted.1 (some persisted.2.1) drawn.2

/-- One `concept_graph` row: `concept` requires `prereq`. -/
structure Edge where
  prereq : String
  concept : String
deriving DecidableEq, Repr

/-- One step of building the `prereq_map`: `prereq_map.setdefault(concept, []).append(prereq)`
on an insertion-ordered dict. -/
def pmStep (m : List (String × List String)) (e : Edge) : List (String × List String) :=
  if m.any fun p => p.1 == e.concept then
    m.map fun p => if p.1 == e.concept then (p.1, p.2 ++ [e.prereq]) else p
  else m ++ [(e.concept, [e.prereq])]

/-- The `prereq_map` built by `dag_query`: `concept -> list of prereqs`, a dict in
key-insertion order with `setdefault(...).append(...)` semantics. -/
def buildPrereqMap (edges : List Edge) : List (String × List String) :=
  edges.foldl pmStep []

/-- `dag_query` (planner_agent.py lines 87-102): candidates are the keys of
`prereq_map` that are not mastered and all of whose recorded prereqs are mastered. -/
def dag_query (edges : List Edge) (mastered : List String) : List String :=
  ((buildPrereqMap edges).filter fun p =>
    !(mastered.contains p.1) && p.2.all fun q => mastered.contains q).map Prod.fst

/-- The claim statement version of `dag_query`, written from the spec sentence
"concepts not yet mastered, all of whose prerequisites are mastered", over every
concept mentioned in the edge list. Used only to compare the code against the claim. -/
def dag_query_spec (edges : List Edge) (mastered : List String) : List String :=
  ((edges.map Edge.prereq ++ edges.map Edge.concept).dedup).filter fun c =>
    !(mastered.contains c) &&
      ((edges.filter fun e => e.concept == c).map Edge.prereq).all fun q =>
        mastered.contains q

/-- `sessions.analysis_status` values. -/
inductive AStatus
  | null
  | processing
  | success
  | failed
deriving DecidableEq, Repr

/-- The local state of one `queue_session_analysis` worker: program counter
(0 = before the claim UPDATE, 1 = before the select-after-update check,
2 = claimed and about to run the analysis and write the final status,
3 = exited), the `can_proceed` flag, and the final status it wrote, if any. -/
structure WorkerState where
  pc : Nat := 0
  can_proceed : Bool := false
  wrote_final : Option AStatus := none
deriving DecidableEq, Repr

/-- The shared row plus all workers, with the trace of statuses after each
executed step. -/
structure AnalyzerSys where
  status : AStatus := .null
  workers : List WorkerState
  trace : List AStatus := []
deriving DecidableEq, Repr

/-- One atomic step of a worker (session_tasks.py lines 26-46 and 94-108):
* pc 0 — the claim `UPDATE ... SET analysis_status=processing WHERE id=? AND
  analysis_status IS NULL` (a no-op when the status is not null);
* pc 1 — the select-after-update check: proceed iff the row currently reads
  `processing` (note: this does not test whether THIS worker performed the claim);
* pc 2 — run the analysis (`ok` tells whether it succeeds) and unconditionally
  write the final `success`/`failed` status (the final UPDATE has no status guard). -/
def workerStep (ok : Bool) (w : WorkerState) (st : AStatus) : WorkerState × AStatus :=
  match w.pc with
  | 0 => ({ w with pc := 1 }, if st = .null then .processing else st)
  | 1 =>
      if st = .processing then ({ w with pc := 2, can_proceed := true }, st)
      else ({ w with pc := 3 }, st)
  | 2 =>
      let final := if ok then AStatus.success else AStatus.failed
      ({ w with pc := 3, wrote_final := some final }, final)
  | _ => (w, st)

/-- Run an interleaving: each schedule entry names the worker that executes its next
atomic step; `oks` gives the analysis outcome of each worker. -/
def runSched (oks : List Bool) : List Nat → AnalyzerSys → AnalyzerSys
  | [], s => s
  | i :: rest, s =>
      match s.workers.get? i with
      | none => runSched oks rest s
      | some w =>
          let step := workerStep (oks.getD i true) w s.status
          runSched oks rest
            { status := step.2, workers := s.workers.set i step.1,
              trace := s.trace ++ [step.2] }

/-- Keep test of one GC pass: an entry is deleted iff
`(spec.get("metadata") or {}).get("expiresAt", 0) < now`. -/
def gcKeep (now : Nat) (spec : ObjectSpec) : Bool :=
  !(((spec.metadata.getD {}).expiresAt.getD 0) < now)

/-- One pass of `_gc_ephemeral_loop` over the `ephemeral` map of a doc
(whiteboard_ws.py lines 274-280), as the resulting entry list. -/
def gc_ephemeral_pass (now : Nat) (m : List (String × ObjectSpec)) :
    List (String × ObjectSpec) :=
  m.filter fun e => gcKeep now e.2

/-- The same spec with its metadata `expiresAt` field set to `e`. -/
def withExpires (s : ObjectSpec) (e : Nat) : ObjectSpec :=
  { s with metadata := some { s.metadata.getD {} with expiresAt := some e } }

/-- Concrete learner-model state used by the C2 witness. -/
def c2St0 : UserModelState :=
  { concepts := [("Photosynthesis",
      { alpha := 2, beta := 1, attempts := 1, confusion_points := ["mixes up inputs"] })] }

/-- Initial two-worker analyzer system for the C5 evaluation. -/
def c5Sys0 : AnalyzerSys := { status := .null, workers := [{}, {}] }

/-- The interleaving that breaks the claim protocol: both workers run the claim
UPDATE, then both run the select-after-update check, then both finalize. -/
def c5Sched : List Nat := [0, 1, 0, 1, 0, 1]

/-- Concrete ephemeral map for the C10 witness: one entry lacking `expiresAt`, one
expired, one live. -/
def c10Map : List (String × ObjectSpec) :=
  [("h1", { id := "h1", kind := some "rect",
            metadata := some { source := some "assistant" } }),
   ("h2", { id := "h2", kind := some "rect",
            metadata := some { source := some "assistant", expiresAt := some 500 } }),
   ("h3", { id := "h3", kind := some "rect",
            metadata := some { source := some "assistant", expiresAt := some 2000 } })]

/-- The prerequisite edges of the C7 scenario: `(A,B), (B,C)`. -/
def c7Edges : List Edge :=
  [{ prereq := "A", concept := "B" }, { prereq := "B", concept := "C" }]

/-- Invariant of the prereq-map fold: keys are exactly the concepts of the processed
edges, keys are unique, and a value lists exactly the prereqs recorded for its key. -/
structure PMInv (edges : List Edge) (m : List (String × List String)) : Prop where
  keys : ∀ c, (∃ ps, (c, ps) ∈ m) ↔ ∃ e ∈ edges, e.concept = c
  uniq : m.Pairwise fun p q => p.1 ≠ q.1
  vals : ∀ c ps, (c, ps) ∈ m → ∀ q, q ∈ ps ↔ (⟨q, c⟩ : Edge) ∈ edges

/-- Concrete default allocator used by witnesses. -/
def c8Alloc : GridAllocator := {}

/-- The (id, metadata.role) projection of a canvas object spec. -/
def specIdRole (s : ObjectSpec) : String × Option String :=
  (s.id, (s.metadata.getD {}).role)

/-- The spec list of a successful drawing result (`[]` on error). -/
def okSpecs (r : Except DrawErr (List ObjectSpec) × GridAllocator) : List ObjectSpec :=
  match r.1 with
  | .ok specs => specs
  | .error _ => []

/-- Concrete question used by the C9 witness. -/
def c9Q : QuizQuestion :=
  { question := "Inputs of photosynthesis?",
    options := ["CO2+H2O+light", "Glucose", "Oxygen", "Heat"],
    correct_answer_index := 0,
    explanation := "Photosynthesis consumes carbon dioxide, water and light.",
    difficulty := "Easy",
    related_section := "Photosynthesis" }

/-- An allocator whose top-left cell is already occupied, so the second C9 run
places the MCQ one row lower than the first. -/
def c9A2 : GridAllocator :=
  { grid := fun r c => if r = 0 ∧ c = 0 then some "other" else none }

/-- Number of specs with the given metadata role and kind. -/
def countRoleKind (specs : List ObjectSpec) (r k : String) : Nat :=
  (specs.filter fun s => s.kind == some k && (s.metadata.getD {}).role == some r).length

/-- Concrete context and args for the C4 counterexample and witness. -/
def c4Ctx : TutorContext := { session_id := "s4" }

/-- A valid 4-option `ask_question` argument record. -/
def c4Args : AskQuestionArgs :=
  { question_data := some
      { question := "Inputs of photosynthesis?",
        options := ["CO2+H2O+light", "Glucose", "Oxygen", "Heat"],
        correct_answer_index := 0,
        explanation := "CO2, water and light are consumed.",
        difficulty := "Easy",
        related_section := "Photosynthesis" } }

/-- Object counts of each whiteboard action of an envelope payload. -/
def wbObjectCounts (o : Option (List WBAction)) : Option (List Nat) :=
  o.map fun acts => acts.map fun a =>
    match a with
    | .ADD_OBJECTS l => l.length
    | .UPDATE_OBJECTS l => l.length

/-- Concrete question for the C1 witness. -/
def c1Q : QuizQuestion :=
  { question := "Which gas do plants absorb?",
    options := ["Oxygen", "CO2", "Nitrogen", "Helium"],
    correct_answer_index := 1,
    explanation := "Plants absorb carbon dioxide for photosynthesis.",
    difficulty := "Easy",
    related_section := "Photosynthesis" }

/-- Concrete session context for the C1 witness: pending question, last history
entry a user `answer` event selecting option 1. -/
def c1Ctx : TutorContext :=
  { session_id := "s1",
    current_quiz_question := some c1Q,
    user_model_state :=
      { concepts := [("Photosynthesis", { alpha := 2, beta := 1, attempts := 1 })] },
    history := [{ role := "user",
                  content := .event "answer" (some { answer_index := some 1 }) }] }

/-- Concrete 4-option question for the C3 scenario. -/
def c3Q : QuizQuestion :=
  { question := "Pick one",
    options := ["a", "b", "c", "d"],
    correct_answer_index := 0,
    explanation := "because",
    difficulty := "Easy",
    related_section := "Topic" }

/-- Context for the C3 scenario: pending question, answer event with index 7. -/
def c3Ctx : TutorContext :=
  { session_id := "s3",
    current_quiz_question := some c3Q,
    user_model_state := { concepts := [("Topic", { alpha := 3, beta := 2 })] },
    history := [{ role := "user",
                  content := .event "answer" (some { answer_index := some 7 }) }] }

/-- The error code carried by an envelope, if any. -/
def envErrorCode (e : InteractionResponseData) : Option String :=
  match e.data with
  | .errorData _ code _ => some code
  | _ => none

theorem lookup_setConcept (cs : List (String × UserConceptMastery)) (t : String)
    (v : UserConceptMastery) : lookupConcept (setConcept cs t v) t = some v := by
  induction cs with
  | nil => simp [setConcept, lookupConcept]
  | cons p rest ih =>
      by_cases h : p.1 == t
      · simp [setConcept, lookupConcept, h]
      · simp only [setConcept, lookupConcept, h, if_false, Bool.false_eq_true, ite_false]
        exact ih

/-! ## Quiz and canvas-object data model -/

/-! ## Layout templates (services/layout_templates.py) -/

/-! ## Grid layout allocator (services/layout_allocator.py) -/

/-! ## MCQ drawing skill (skills/draw_mcq.py) -/

/-! ## Deterministic id generation (skills/drawing_tools.py) -/

/-! ## Tutor context and chat history (context.py, routers/tutor_ws.py) -/

/-! ## Quiz evaluation (skills/evaluate_quiz.py) -/

/-! ## Outbound envelopes and the deterministic answer path (routers/tutor_ws.py) -/

/-! ## Assistant-turn persistence (tutor_ws.py lines 1398-1438) -/

/-! ## The `ask_question` branch of `_dispatch_tool_call` (tutor_ws.py lines 777-920) -/

/-! ## Planner DAG query (agents/planner_agent.py lines 87-102) -/

/-! ## Session-analyzer claim protocol (services/session_tasks.py lines 12-114) -/

/-! ## Ephemeral GC (routers/whiteboard_ws.py lines 267-282) -/

/-! # Theorems settling the claims -/

/-- C2: for every call to `update_user_model` on concept `topic`: outcome `correct`
gives α′=α+1, β′=β, attempts′=attempts+1; `incorrect` gives β′=β+1, α′=α,
attempts′=attempts+1 and appends a non-empty novel details string to the confusion
points; `explained`/`clarification_needed`/`unsure` only increment attempts; and in
every case the last-interaction outcome of the concept and last-accessed timestamp and
the current topic of the session are set. -/
theorem c2_update_user_model_outcomes (st : UserModelState) (topic : String)
    (outcome : Outcome) (details : Option String) (now : Nat) :
    ∃ c2,
      lookupConcept (update_user_model st topic outcome details now).concepts topic = some c2 ∧
      (outcome = .correct →
        c2.alpha = (conceptOr st topic).alpha + 1 ∧ c2.beta = (conceptOr st topic).beta ∧
        c2.attempts = (conceptOr st topic).attempts + 1) ∧
      (outcome = .incorrect →
        c2.beta = (conceptOr st topic).beta + 1 ∧ c2.alpha = (conceptOr st topic).alpha ∧
        c2.attempts = (conceptOr st topic).attempts + 1 ∧
        ∀ d, details = some d → d ≠ "" → d ∉ (conceptOr st topic).confusion_points →
          c2.confusion_points = (conceptOr st topic).confusion_points ++ [d]) ∧
      ((outcome = .explained ∨ outcome = .clarification_needed ∨ outcome = .unsure) →
        c2.attempts = (conceptOr st topic).attempts + 1 ∧
        c2.alpha = (conceptOr st topic).alpha ∧ c2.beta = (conceptOr st topic).beta) ∧
      c2.last_interaction_outcome = some outcome.toStr ∧
      c2.last_accessed = some now ∧
      (update_user_model st topic outcome details now).current_topic = some topic := by
  cases outcome with
  | correct =>
      exact ⟨_, lookup_setConcept _ _ _, fun _ => ⟨rfl, rfl, rfl⟩,
        fun h => Outcome.noConfusion h,
        fun h => by rcases h with h | h | h <;> exact Outcome.noConfusion h,
        rfl, rfl, rfl⟩
  | incorrect =>
      refine ⟨_, lookup_setConcept _ _ _, fun h => Outcome.noConfusion h,
        fun _ => ⟨rfl, rfl, rfl, ?_⟩,
        fun h => by rcases h with h | h | h <;> exact Outcome.noConfusion h,
        rfl, rfl, rfl⟩
      intro d hd hne hmem
      subst hd
      show (if d ≠ "" then
              if d ∉ (conceptOr st topic).confusion_points then
                (conceptOr st topic).confusion_points ++ [d]
              else (conceptOr st topic).confusion_points
            else (conceptOr st topic).confusion_points) = _
      simp [hne, hmem]
  | explained =>
      exact ⟨_, lookup_setConcept _ _ _, fun h => Outcome.noConfusion h,
        fun h => Outcome.noConfusion h, fun _ => ⟨rfl, rfl, rfl⟩, rfl, rfl, rfl⟩
  | clarification_needed =>
      exact ⟨_, lookup_setConcept _ _ _, fun h => Outcome.noConfusion h,
        fun h => Outcome.noConfusion h, fun _ => ⟨rfl, rfl, rfl⟩, rfl, rfl, rfl⟩
  | unsure =>
      exact ⟨_, lookup_setConcept _ _ _, fun h => Outcome.noConfusion h,
        fun h => Outcome.noConfusion h, fun _ => ⟨rfl, rfl, rfl⟩, rfl, rfl, rfl⟩

/-- Witness for C2 at a concrete `incorrect` update with a novel details string:
the theorem instantiated at that input, plus the concrete evaluation of the result. -/
theorem c2_update_user_model_outcomes_witness :
    (∃ c2,
      lookupConcept (update_user_model c2St0 "Photosynthesis" .incorrect
        (some "forgot light") 42).concepts "Photosynthesis" = some c2 ∧
      (Outcome.incorrect = .correct →
        c2.alpha = (conceptOr c2St0 "Photosynthesis").alpha + 1 ∧
        c2.beta = (conceptOr c2St0 "Photosynthesis").beta ∧
        c2.attempts = (conceptOr c2St0 "Photosynthesis").attempts + 1) ∧
      (Outcome.incorrect = .incorrect →
        c2.beta = (conceptOr c2St0 "Photosynthesis").beta + 1 ∧
        c2.alpha = (conceptOr c2St0 "Photosynthesis").alpha ∧
        c2.attempts = (conceptOr c2St0 "Photosynthesis").attempts + 1 ∧
        ∀ d, (some "forgot light" : Option String) = some d → d ≠ "" →
          d ∉ (conceptOr c2St0 "Photosynthesis").confusion_points →
          c2.confusion_points = (conceptOr c2St0 "Photosynthesis").confusion_points ++ [d]) ∧
      ((Outcome.incorrect = .explained ∨ Outcome.incorrect = .clarification_needed ∨
          Outcome.incorrect = .unsure) →
        c2.attempts = (conceptOr c2St0 "Photosynthesis").attempts + 1 ∧
        c2.alpha = (conceptOr c2St0 "Photosynthesis").alpha ∧
        c2.beta = (conceptOr c2St0 "Photosynthesis").beta) ∧
      c2.last_interaction_outcome = some (Outcome.incorrect.toStr) ∧
      c2.last_accessed = some 42 ∧
      (update_user_model c2St0 "Photosynthesis" .incorrect
        (some "forgot light") 42).current_topic = some "Photosynthesis") ∧
    (lookupConcept (update_user_model c2St0 "Photosynthesis" .incorrect
        (some "forgot light") 42).concepts "Photosynthesis").map
      (fun c => (c.alpha, c.beta, c.attempts, c.confusion_points)) =
      some (2, 2, 2, ["mixes up inputs", "forgot light"]) :=
  ⟨c2_update_user_model_outcomes c2St0 "Photosynthesis" .incorrect (some "forgot light") 42,
   by decide⟩

/-- C5: evaluation of the claim protocol of `queue_session_analysis` at the failing
interleaving. Worker 0 claims null→processing; the claim UPDATE of worker 1 is a no-op,
but its select-after-update check also reads `processing`, so BOTH workers set
`can_proceed` and both write a final status. With the analysis of worker 1 failing, the
status row goes `processing → success → failed`: more than one worker reaches a
final state and the automaton transition `success → failed` occurs, contradicting
the claim. -/
theorem c5_claim_protocol_eval :
    ((runSched [true, true] c5Sched c5Sys0).workers.map WorkerState.wrote_final =
      [some .success, some .success]) ∧
    ((runSched [true, true] c5Sched c5Sys0).workers.map WorkerState.can_proceed =
      [true, true]) ∧
    (runSched [true, false] c5Sched c5Sys0).trace =
      [.processing, .processing, .processing, .processing, .success, .failed] ∧
    (runSched [true, false] c5Sched c5Sys0).status = .failed := by
  decide

/-- C6: `_persist_assistant_message` writes a snapshot row with
`snapshot_index = turn_no` exactly when the assistant turn carries whiteboard
actions, the assistant row references that same index, and assistant turns without
whiteboard actions have a null `whiteboard_snapshot_index`. -/
theorem c6_snapshot_index_alignment (ctx : TutorContext) (text_summary : String)
    (payload_attached : Bool) (wb : Option (List WBAction)) :
    (persist_assistant_message ctx text_summary payload_attached wb).2.1.role = "assistant" ∧
    (∀ acts, wb = some acts → acts ≠ [] →
      ∃ snap,
        (persist_assistant_message ctx text_summary payload_attached wb).1 = some snap ∧
        snap.snapshot_index =
          (persist_assistant_message ctx text_summary payload_attached wb).2.1.turn_no ∧
        snap.session_id = ctx.session_id ∧
        snap.actions_json = acts ∧
        (persist_assistant_message ctx text_summary
            payload_attached wb).2.1.whiteboard_snapshot_index =
          some ((persist_assistant_message ctx text_summary payload_attached wb).2.1.turn_no) ∧
        (persist_assistant_message ctx text_summary
            payload_attached wb).2.2.latest_snapshot_index = some snap.snapshot_index) ∧
    ((wb = none ∨ wb = some []) →
      (persist_assistant_message ctx text_summary payload_attached wb).1 = none ∧
      (persist_assistant_message ctx text_summary
          payload_attached wb).2.1.whiteboard_snapshot_index = none) := by
  refine ⟨?_, ?_, ?_⟩
  · cases wb with
    | none => rfl
    | some acts =>
        by_cases h : acts = [] <;> simp [persist_assistant_message, h]
  · intro acts hacts hne
    subst hacts
    refine ⟨{ session_id := ctx.session_id, snapshot_index := ctx.latest_turn_no.getD 0 + 1,
              actions_json := acts }, ?_, ?_, ?_, ?_, ?_, ?_⟩ <;>
      simp [persist_assistant_message, hne]
  · intro h
    rcases h with h | h <;> subst h <;> simp [persist_assistant_message]

/-- Witness for C6: a concrete assistant turn with one whiteboard action, and one
without; the snapshot row aligns with the turn number in the first case and is
absent in the second. -/
theorem c6_snapshot_index_alignment_witness :
    ((persist_assistant_message { session_id := "s1", latest_turn_no := some 6 } "done" true
        (some [WBAction.ADD_OBJECTS []])).1 =
      some { session_id := "s1", snapshot_index := 7,
             actions_json := [WBAction.ADD_OBJECTS []] }) ∧
    (∃ snap,
        (persist_assistant_message { session_id := "s1", latest_turn_no := some 6 } "done" true
          (some [WBAction.ADD_OBJECTS []])).1 = some snap ∧
        snap.snapshot_index =
          (persist_assistant_message { session_id := "s1", latest_turn_no := some 6 } "done" true
            (some [WBAction.ADD_OBJECTS []])).2.1.turn_no ∧
        snap.session_id = "s1" ∧
        snap.actions_json = [WBAction.ADD_OBJECTS []] ∧
        (persist_assistant_message { session_id := "s1", latest_turn_no := some 6 } "done" true
            (some [WBAction.ADD_OBJECTS []])).2.1.whiteboard_snapshot_index =
          some ((persist_assistant_message { session_id := "s1", latest_turn_no := some 6 }
            "done" true (some [WBAction.ADD_OBJECTS []])).2.1.turn_no) ∧
        (persist_assistant_message { session_id := "s1", latest_turn_no := some 6 } "done" true
            (some [WBAction.ADD_OBJECTS []])).2.2.latest_snapshot_index =
          some snap.snapshot_index) ∧
    ((persist_assistant_message { session_id := "s1", latest_turn_no := some 6 } "plain" true
        none).2.1.whiteboard_snapshot_index = none) :=
  ⟨by decide,
   (c6_snapshot_index_alignment { session_id := "s1", latest_turn_no := some 6 } "done" true
      (some [WBAction.ADD_OBJECTS []])).2.1 [WBAction.ADD_OBJECTS []] rfl (by decide),
   ((c6_snapshot_index_alignment { session_id := "s1", latest_turn_no := some 6 } "plain" true
      none).2.2 (Or.inl rfl)).2⟩

/-- C10: in a GC pass at time `now > 0`, an ephemeral entry whose metadata has no
`expiresAt` field is treated exactly like one with `expiresAt = 0` and is deleted,
entries with a past `expiresAt` are deleted, and the survivors are exactly the
entries whose `expiresAt` is present and not earlier than `now`. -/
theorem c10_ephemeral_gc_default_expiry (now : Nat) (m : List (String × ObjectSpec))
    (hnow : 0 < now) :
    (∀ s, (s.metadata.getD {}).expiresAt = none →
      gcKeep now s = gcKeep now (withExpires s 0)) ∧
    (∀ e ∈ m, ((e.2).metadata.getD {}).expiresAt = none → e ∉ gc_ephemeral_pass now m) ∧
    (∀ e ∈ m, ∀ t, ((e.2).metadata.getD {}).expiresAt = some t → t < now →
      e ∉ gc_ephemeral_pass now m) ∧
    (∀ e, e ∈ gc_ephemeral_pass now m ↔
      e ∈ m ∧ ∃ t, ((e.2).metadata.getD {}).expiresAt = some t ∧ now ≤ t) := by
  have keep_iff : ∀ s : ObjectSpec,
      gcKeep now s = true ↔ ∃ t, (s.metadata.getD {}).expiresAt = some t ∧ now ≤ t := by
    intro s
    cases h : (s.metadata.getD {}).expiresAt with
    | none => simp [gcKeep, h, hnow]
    | some t => simp [gcKeep, h]
  refine ⟨?_, ?_, ?_, ?_⟩
  · intro s hs
    simp [gcKeep, withExpires, hs]
  · intro e hm he hmem
    rw [gc_ephemeral_pass, List.mem_filter] at hmem
    rcases (keep_iff e.2).mp hmem.2 with ⟨t, ht, _⟩
    rw [he] at ht
    cases ht
  · intro e hm t ht hlt hmem
    rw [gc_ephemeral_pass, List.mem_filter] at hmem
    rcases (keep_iff e.2).mp hmem.2 with ⟨t2, ht2, hle⟩
    rw [ht] at ht2
    cases ht2
    omega
  · intro e
    rw [gc_ephemeral_pass, List.mem_filter]
    exact and_congr_right fun _ => keep_iff e.2

/-- Witness for C10 at `now = 1000`: the no-`expiresAt` entry and the expired entry
are deleted, and the pass keeps exactly the live entry. -/
theorem c10_ephemeral_gc_default_expiry_witness :
    (0 < 1000 ∧
      ((c10Map.get ⟨0, by decide⟩).2.metadata.getD {}).expiresAt = none ∧
      gc_ephemeral_pass 1000 c10Map = [c10Map.get ⟨2, by decide⟩]) ∧
    (c10Map.get ⟨0, by decide⟩ ∉ gc_ephemeral_pass 1000 c10Map) ∧
    (c10Map.get ⟨1, by decide⟩ ∉ gc_ephemeral_pass 1000 c10Map) :=
  ⟨⟨by decide, by decide, by decide⟩,
   (c10_ephemeral_gc_default_expiry 1000 c10Map (by decide)).2.1
     (c10Map.get ⟨0, by decide⟩) (by decide) (by decide),
   (c10_ephemeral_gc_default_expiry 1000 c10Map (by decide)).2.2.1
     (c10Map.get ⟨1, by decide⟩) (by decide) 500 (by decide) (by decide)⟩

/-- C7 counterexample: with edges `(A,B), (B,C)` and an empty learner model,
`dag_query` returns the empty list — concept `A`, which has no prerequisites and is
not mastered, is NOT a candidate (it never appears as a target in `prereq_map`),
while the set demanded by the claim, namely "concepts not yet mastered whose prerequisites are all
mastered" is exactly `[A]`. -/
theorem c7_dag_query_counterexample :
    dag_query c7Edges [] = [] ∧ "A" ∉ dag_query c7Edges [] ∧
    ¬ (dag_query c7Edges [] = ["A"]) ∧ dag_query_spec c7Edges [] = ["A"] := by
  decide

theorem contains_iff_mem (l : List String) (a : String) : l.contains a = true ↔ a ∈ l :=
  List.elem_iff

theorem pmStep_inv (edges : List Edge) (m : List (String × List String)) (e : Edge)
    (h : PMInv edges m) : PMInv (edges ++ [e]) (pmStep m e) := by
  classical
  unfold pmStep
  by_cases hany : (m.any fun p => p.1 == e.concept) = true
  · rw [if_pos hany]
    obtain ⟨p0, hp0m, hp0⟩ := List.any_eq_true.mp hany
    rw [beq_iff_eq] at hp0
    have hfst : ∀ p : String × List String,
        ((if p.1 == e.concept then (p.1, p.2 ++ [e.prereq]) else p) : String × List String).1 =
          p.1 := by
      intro p; split <;> rfl
    have hkey_map : ∀ (c : String) (ps0 : List String),
        ((c, ps0) : String × List String) ∈ m →
        ∃ ps, ((c, ps) : String × List String) ∈
          m.map fun p => if p.1 == e.concept then (p.1, p.2 ++ [e.prereq]) else p := by
      intro c ps0 hps
      refine ⟨if (c : String) == e.concept then ps0 ++ [e.prereq] else ps0, ?_⟩
      have hmm := List.mem_map_of_mem
        (fun p : String × List String =>
          if p.1 == e.concept then (p.1, p.2 ++ [e.prereq]) else p) hps
      by_cases hcc : ((c : String) == e.concept) = true
      · simpa [hcc] using hmm
      · simpa [hcc] using hmm
    refine ⟨?_, ?_, ?_⟩
    · intro c
      constructor
      · rintro ⟨ps, hps⟩
        rcases List.mem_map.mp hps with ⟨⟨c0, ps0⟩, hqm, hq⟩
        have hc : c0 = c := by
          have := congrArg Prod.fst hq
          simpa using (hfst (c0, ps0)).symm.trans this
        subst hc
        obtain ⟨e2, he2, hce⟩ := (h.keys c0).mp ⟨ps0, hqm⟩
        exact ⟨e2, List.mem_append_left _ he2, hce⟩
      · rintro ⟨e2, he2, hce⟩
        rcases List.mem_append.mp he2 with h1 | h1
        · obtain ⟨ps0, hps0⟩ := (h.keys c).mpr ⟨e2, h1, hce⟩
          exact hkey_map c ps0 hps0
        · have he2e : e2 = e := List.mem_singleton.mp h1
          rw [he2e] at hce
          have hp0c : p0.1 = c := hp0.trans hce
          have hmem : ((c, p0.2) : String × List String) ∈ m := by
            have h2 : ((p0.1, p0.2) : String × List String) ∈ m := hp0m
            rwa [hp0c] at h2
          exact hkey_map c p0.2 hmem
    · refine (List.pairwise_map).mpr (List.Pairwise.imp ?_ h.uniq)
      intro a b hab
      rw [hfst a, hfst b]
      exact hab
    · intro c ps hmem q
      rcases List.mem_map.mp hmem with ⟨⟨c0, ps0⟩, hrm, hr⟩
      by_cases hrc : ((c0 : String) == e.concept) = true
      · rw [if_pos hrc] at hr
        rw [beq_iff_eq] at hrc
        have hc : c0 = c := congrArg Prod.fst hr
        have hps : ps0 ++ [e.prereq] = ps := congrArg Prod.snd hr
        subst hc
        rw [← hps, List.mem_append, h.vals c0 ps0 hrm q, List.mem_append]
        refine or_congr Iff.rfl ?_
        rw [List.mem_singleton, List.mem_singleton]
        constructor
        · intro hq
          subst hq
          rw [show (⟨e.prereq, c0⟩ : Edge) = ⟨e.prereq, e.concept⟩ by rw [hrc]]
        · intro hq
          exact congrArg Edge.prereq hq
      · rw [if_neg hrc] at hr
        have hrc2 : c0 ≠ e.concept := fun hcc => hrc (beq_iff_eq.mpr hcc)
        have hc : c0 = c := congrArg Prod.fst hr
        have hps : ps0 = ps := congrArg Prod.snd hr
        subst hc
        rw [← hps, h.vals c0 ps0 hrm q, List.mem_append]
        constructor
        · exact Or.inl
        · rintro (hq | hq)
          · exact hq
          · exact absurd (congrArg Edge.concept (List.mem_singleton.mp hq)) hrc2
  · rw [if_neg hany]
    have hnokey : ∀ p ∈ m, p.1 ≠ e.concept := by
      intro p hp hc
      exact hany (List.any_eq_true.mpr ⟨p, hp, beq_iff_eq.mpr hc⟩)
    refine ⟨?_, ?_, ?_⟩
    · intro c
      constructor
      · rintro ⟨ps, hps⟩
        rcases List.mem_append.mp hps with hin | hin
        · obtain ⟨e2, he2, hce⟩ := (h.keys c).mp ⟨ps, hin⟩
          exact ⟨e2, List.mem_append_left _ he2, hce⟩
        · have hc : c = e.concept :=
            congrArg Prod.fst (List.mem_singleton.mp hin)
          exact ⟨e, List.mem_append_right _ (List.mem_singleton.mpr rfl), hc.symm⟩
      · rintro ⟨e2, he2, hce⟩
        rcases List.mem_append.mp he2 with h1 | h1
        · obtain ⟨ps, hps⟩ := (h.keys c).mpr ⟨e2, h1, hce⟩
          exact ⟨ps, List.mem_append_left _ hps⟩
        · have he2e : e2 = e := List.mem_singleton.mp h1
          rw [he2e] at hce
          refine ⟨[e.prereq], List.mem_append_right _ (List.mem_singleton.mpr ?_)⟩
          rw [hce]
    · refine List.pairwise_append.mpr ⟨h.uniq, by simp, ?_⟩
      intro a ha b hb
      rw [List.mem_singleton.mp hb]
      exact hnokey a ha
    · intro c ps hmem q
      rcases List.mem_append.mp hmem with hin | hin
      · have hne : c ≠ e.concept := hnokey (c, ps) hin
        rw [h.vals c ps hin q, List.mem_append]
        constructor
        · exact Or.inl
        · rintro (hq | hq)
          · exact hq
          · exact absurd (congrArg Edge.concept (List.mem_singleton.mp hq)) hne
      · have hcps := List.mem_singleton.mp hin
        have hc : c = e.concept := congrArg Prod.fst hcps
        have hps : ps = [e.prereq] := congrArg Prod.snd hcps
        subst hps
        rw [List.mem_append]
        constructor
        · intro hq
          have hqe : q = e.prereq := List.mem_singleton.mp hq
          subst hqe
          refine Or.inr (List.mem_singleton.mpr ?_)
          rw [hc]
        · rintro (hq | hq)
          · exfalso
            obtain ⟨ps2, hps2⟩ := (h.keys c).mpr ⟨⟨q, c⟩, hq, rfl⟩
            exact hnokey (c, ps2) hps2 hc
          · exact List.mem_singleton.mpr (congrArg Edge.prereq (List.mem_singleton.mp hq))

theorem buildPrereqMap_inv_aux (es : List Edge) :
    ∀ (es0 : List Edge) (m : List (String × List String)), PMInv es0 m →
      PMInv (es0 ++ es) (es.foldl pmStep m) := by
  induction es with
  | nil =>
      intro es0 m h
      rw [List.append_nil]
      exact h
  | cons e rest ih =>
      intro es0 m h
      have h3 := ih (es0 ++ [e]) (pmStep m e) (pmStep_inv es0 m e h)
      rw [List.append_assoc] at h3
      exact h3

theorem buildPrereqMap_inv (edges : List Edge) : PMInv edges (buildPrereqMap edges) := by
  have h0 : PMInv [] [] := ⟨by simp, by simp, by simp⟩
  have h1 := buildPrereqMap_inv_aux edges [] [] h0
  rw [List.nil_append] at h1
  exact h1

/-- C7 as amended: `dag_query` returns exactly the concepts that appear as the
TARGET of at least one prerequisite edge, are not mastered, and all of whose
prerequisites are mastered; a concept with no incoming edge (such as `A` in the
cited scenario) is never a candidate. -/
theorem c7_dag_query_amended (edges : List Edge) (mastered : List String) (c : String) :
    c ∈ dag_query edges mastered ↔
      ((∃ e ∈ edges, e.concept = c) ∧ c ∉ mastered ∧
        ∀ e ∈ edges, e.concept = c → e.prereq ∈ mastered) := by
  have inv := buildPrereqMap_inv edges
  unfold dag_query
  rw [List.mem_map]
  constructor
  · rintro ⟨⟨c0, ps⟩, hp, rfl⟩
    rw [List.mem_filter] at hp
    obtain ⟨hmem, hpred⟩ := hp
    rw [Bool.and_eq_true] at hpred
    obtain ⟨hnm, hall⟩ := hpred
    have hnm2 : c0 ∉ mastered := by
      intro hin
      rw [Bool.not_eq_eq_eq_not, Bool.not_true] at hnm
      rw [← contains_iff_mem _ _] at hin
      rw [hnm] at hin
      cases hin
    refine ⟨(inv.keys c0).mp ⟨ps, hmem⟩, hnm2, ?_⟩
    intro e he hce
    have hq : e.prereq ∈ ps := by
      rw [inv.vals c0 ps hmem e.prereq]
      have : (⟨e.prereq, c0⟩ : Edge) = e := by
        cases e
        simp_all
      rw [this]
      exact he
    have := List.all_eq_true.mp hall e.prereq hq
    rwa [contains_iff_mem _ _] at this
  · rintro ⟨⟨e0, he0, hc⟩, hnm, hall⟩
    obtain ⟨ps, hps⟩ := (inv.keys c).mpr ⟨e0, he0, hc⟩
    refine ⟨(c, ps), List.mem_filter.mpr ⟨hps, ?_⟩, rfl⟩
    rw [Bool.and_eq_true]
    constructor
    · rw [Bool.not_eq_eq_eq_not, Bool.not_true]
      by_contra hcon
      rw [Bool.not_eq_false, contains_iff_mem _ _] at hcon
      exact hnm hcon
    · rw [List.all_eq_true]
      intro q hq
      rw [inv.vals c ps hps q] at hq
      rw [contains_iff_mem _ _]
      exact hall ⟨q, c⟩ hq rfl

theorem find?_first {α : Type} (p : α → Bool) :
    ∀ (l : List α) (a : α), l.find? p = some a →
      p a = true ∧ ∃ n : Nat, l[n]? = some a ∧
        ∀ m : Nat, m < n → ∀ b, l[m]? = some b → p b = false := by
  intro l
  induction l with
  | nil => intro a h; cases h
  | cons x xs ih =>
      intro a h
      by_cases hx : p x = true
      · rw [List.find?_cons_of_pos _ hx] at h
        cases h
        exact ⟨hx, 0, by simp, fun m hm => absurd hm (Nat.not_lt_zero m)⟩
      · have hx2 : p x = false := by simpa using hx
        rw [List.find?_cons_of_neg _ (by simp [hx2])] at h
        obtain ⟨hpa, n, hn, hfirst⟩ := ih a h
        refine ⟨hpa, n + 1, by simpa using hn, ?_⟩
        intro m hm b hb
        cases m with
        | zero =>
            have hbx : x = b := by simpa using hb
            rw [← hbx]
            exact hx2
        | succ k =>
            exact hfirst k (Nat.lt_of_succ_lt_succ hm) b (by simpa using hb)

theorem rowMajor_succ_front (rn cn : Nat) :
    rowMajor (rn + 1) cn =
      ((List.range cn).map fun c => ((0, c) : Nat × Nat)) ++
        (rowMajor rn cn).map fun rc => (rc.1 + 1, rc.2) := by
  unfold rowMajor
  rw [List.range_succ_eq_map, List.flatMap_cons]
  congr 1
  rw [List.map_flatMap, List.flatMap_map]
  congr 1
  funext r
  rw [List.map_map]
  rfl

theorem rowMajor_length : ∀ (rn cn : Nat), (rowMajor rn cn).length = rn * cn := by
  intro rn
  induction rn with
  | zero => intro cn; simp [rowMajor]
  | succ rn ih =>
      intro cn
      rw [rowMajor_succ_front]
      simp [ih]
      ring

theorem rowMajor_getElem? : ∀ (rn cn n : Nat), n < rn * cn →
    (rowMajor rn cn)[n]? = some (n / cn, n % cn) := by
  intro rn
  induction rn with
  | zero =>
      intro cn n hlt
      exact absurd hlt (by simp)
  | succ rn ih =>
      intro cn n hlt
      rw [Nat.succ_mul] at hlt
      have hcn : 0 < cn := by
        rcases Nat.eq_zero_or_pos cn with h0 | h0
        · subst h0; omega
        · exact h0
      rw [rowMajor_succ_front]
      by_cases hn : n < cn
      · rw [List.getElem?_append_left (by simpa using hn)]
        rw [List.getElem?_map, List.getElem?_range hn]
        simp [Nat.div_eq_of_lt hn, Nat.mod_eq_of_lt hn]
      · push_neg at hn
        rw [List.getElem?_append_right (by simpa using hn)]
        have hlt2 : n - cn < rn * cn := by omega
        rw [List.length_map, List.length_range, List.getElem?_map, ih cn (n - cn) hlt2]
        have hdiv : (n - cn) / cn + 1 = n / cn := by
          rw [Nat.div_eq_sub_div hcn hn]
        have hmod : (n - cn) % cn = n % cn := (Nat.mod_eq_sub_mod hn).symm
        simp [hdiv, hmod]

theorem mem_rowMajor (rn cn r c : Nat) : ((r, c) : Nat × Nat) ∈ rowMajor rn cn ↔
    r < rn ∧ c < cn := by
  unfold rowMajor
  rw [List.mem_flatMap]
  constructor
  · rintro ⟨r0, hr0, hin⟩
    rcases List.mem_map.mp hin with ⟨c0, hc0, heq⟩
    have hr : r0 = r := congrArg Prod.fst heq
    have hc : c0 = c := congrArg Prod.snd heq
    subst hr; subst hc
    exact ⟨List.mem_range.mp hr0, List.mem_range.mp hc0⟩
  · rintro ⟨hr, hc⟩
    exact ⟨r, List.mem_range.mpr hr,
      List.mem_map.mpr ⟨c, List.mem_range.mpr hc, rfl⟩⟩

theorem max_one_ceilDiv (w cw : Nat) (hw : 1 ≤ w) (hcw : 0 < cw) :
    max 1 (ceilDiv w cw) = ceilDiv w cw := by
  have h1 : 1 ≤ ceilDiv w cw := by
    rw [ceilDiv, Nat.le_div_iff_mul_le hcw]
    omega
  omega

theorem reserve_flow_eq (a : GridAllocator) (w h : Nat) (rid : String) :
    a.reserve w h rid none none =
      (if max 1 (ceilDiv w a.cell_w) > a.cols ∨ max 1 (ceilDiv h a.cell_h) > a.rows
       then (none, a)
       else
         match findFlow a (max 1 (ceilDiv w a.cell_w)) (max 1 (ceilDiv h a.cell_h)) with
         | some (r, c) =>
             allocateAndReturn a rid c r (max 1 (ceilDiv w a.cell_w))
               (max 1 (ceilDiv h a.cell_h))
         | none => (none, a)) := rfl

/-- C8: `reserve_region` with the flow strategy needs
`ceil(width/cell_w) × ceil(height/cell_h)` cells; if that exceeds the column count of the grid
or row count the call returns `None` and the allocator is unchanged; otherwise a
returned region is the first fully free block in the row-major scan (every strictly
earlier candidate block is not free) and exactly its cells become occupied; when no
free block exists the call returns `None` and the allocator is unchanged. -/
theorem c8_reserve_region_flow_spec (a : GridAllocator) (w h : Nat) (rid : String)
    (gid : Option String) (hcw : 0 < a.cell_w) (hch : 0 < a.cell_h)
    (hw : 1 ≤ w) (hh : 1 ≤ h) :
    ((a.cols < ceilDiv w a.cell_w ∨ a.rows < ceilDiv h a.cell_h) →
       reserve_region_flow a w h rid gid = (none, a)) ∧
    (∀ p a2, reserve_region_flow a w h rid gid = (some p, a2) →
       ∃ row col,
         row + ceilDiv h a.cell_h ≤ a.rows ∧ col + ceilDiv w a.cell_w ≤ a.cols ∧
         blockFree a.grid col row (ceilDiv w a.cell_w) (ceilDiv h a.cell_h) = true ∧
         (∀ row2 col2,
            row2 + ceilDiv h a.cell_h ≤ a.rows → col2 + ceilDiv w a.cell_w ≤ a.cols →
            (row2 < row ∨ (row2 = row ∧ col2 < col)) →
            blockFree a.grid col2 row2 (ceilDiv w a.cell_w) (ceilDiv h a.cell_h) = false) ∧
         p.x = col * a.cell_w ∧ p.y = row * a.cell_h ∧
         p.width = ceilDiv w a.cell_w * a.cell_w ∧
         p.height = ceilDiv h a.cell_h * a.cell_h ∧
         p.regionId = rid ∧
         (∀ rr cc, a2.grid rr cc =
            if row ≤ rr ∧ rr < row + ceilDiv h a.cell_h ∧
               col ≤ cc ∧ cc < col + ceilDiv w a.cell_w
            then some rid else a.grid rr cc)) ∧
    (∀ a2, reserve_region_flow a w h rid gid = (none, a2) → a2 = a) ∧
    (ceilDiv w a.cell_w ≤ a.cols → ceilDiv h a.cell_h ≤ a.rows →
      reserve_region_flow a w h rid gid = (none, a) →
      ∀ row col, row + ceilDiv h a.cell_h ≤ a.rows → col + ceilDiv w a.cell_w ≤ a.cols →
        blockFree a.grid col row (ceilDiv w a.cell_w) (ceilDiv h a.cell_h) = false) := by
  have hmw := max_one_ceilDiv w a.cell_w hw hcw
  have hmh := max_one_ceilDiv h a.cell_h hh hch
  set cn := ceilDiv w a.cell_w with hcndef
  set rn := ceilDiv h a.cell_h with hrndef
  have hover_eq : ∀ hov : a.cols < cn ∨ a.rows < rn,
      reserve_region_flow a w h rid gid = (none, a) := by
    intro hov
    unfold reserve_region_flow
    rw [reserve_flow_eq, hmw, hmh, if_pos (by omega)]
  have hfit_none : ∀ _ : ¬(a.cols < cn ∨ a.rows < rn), findFlow a cn rn = none →
      reserve_region_flow a w h rid gid = (none, a) := by
    intro hov hff
    unfold reserve_region_flow
    rw [reserve_flow_eq, hmw, hmh, if_neg (by omega), hff]
  have hfit_some : ∀ (_ : ¬(a.cols < cn ∨ a.rows < rn)) (r c : Nat),
      findFlow a cn rn = some (r, c) →
      reserve_region_flow a w h rid gid =
        (some { x := c * a.cell_w, y := r * a.cell_h, width := cn * a.cell_w,
                height := rn * a.cell_h, regionId := rid, groupId := truthyStr gid },
         { a with grid := occupyBlock a.grid rid c r cn rn,
                  regions := a.regions ++ [(rid, blockCells c r cn rn)] }) := by
    intro hov r c hff
    unfold reserve_region_flow
    rw [reserve_flow_eq, hmw, hmh, if_neg (by omega), hff]
    rfl
  refine ⟨fun hov => hover_eq hov, ?_, ?_, ?_⟩
  · intro p a2 hres
    by_cases hov : a.cols < cn ∨ a.rows < rn
    · rw [hover_eq hov] at hres
      simp at hres
    · rcases hff : findFlow a cn rn with _ | ⟨r, c⟩
      · rw [hfit_none hov hff] at hres
        simp at hres
      · rw [hfit_some hov r c hff] at hres
        injection hres with h1 h2
        injection h1 with h1
        have hff2 := hff
        unfold findFlow at hff2
        obtain ⟨hfree, n, hn, hfirst⟩ := find?_first _ _ _ hff2
        have hlen : n < (a.rows - rn + 1) * (a.cols - cn + 1) := by
          obtain ⟨hlt, _⟩ := List.getElem?_eq_some_iff.mp hn
          rwa [rowMajor_length] at hlt
        have hCn : 0 < a.cols - cn + 1 := by omega
        have hget := rowMajor_getElem? (a.rows - rn + 1) (a.cols - cn + 1) n hlen
        rw [hn] at hget
        have hpair := Option.some.inj hget
        have hr2 : r = n / (a.cols - cn + 1) := congrArg Prod.fst hpair
        have hc2 : c = n % (a.cols - cn + 1) := congrArg Prod.snd hpair
        have hcb : c < a.cols - cn + 1 := by
          rw [hc2]; exact Nat.mod_lt _ hCn
        have hrb : r < a.rows - rn + 1 := by
          rw [hr2]
          exact (Nat.div_lt_iff_lt_mul hCn).mpr hlen
        have hneq : n = r * (a.cols - cn + 1) + c := by
          rw [hr2, hc2, Nat.mul_comm]
          exact (Nat.div_add_mod n (a.cols - cn + 1)).symm
        refine ⟨r, c, by omega, by omega, by simpa using hfree, ?_,
          by rw [← h1], by rw [← h1], by rw [← h1], by rw [← h1], by rw [← h1], ?_⟩
        · intro row2 col2 hb2 hb3 hlex
          have hrow2 : row2 < a.rows - rn + 1 := by omega
          have hcol2 : col2 < a.cols - cn + 1 := by omega
          have hm : row2 * (a.cols - cn + 1) + col2 < n := by
            rcases hlex with hl | ⟨hl, hl2⟩
            · have hs1 : row2 * (a.cols - cn + 1) + col2 <
                  (row2 + 1) * (a.cols - cn + 1) := by
                rw [Nat.succ_mul]; omega
              have hs2 : (row2 + 1) * (a.cols - cn + 1) ≤ r * (a.cols - cn + 1) :=
                Nat.mul_le_mul_right _ hl
              omega
            · subst hl
              omega
          have hmlt : row2 * (a.cols - cn + 1) + col2 <
              (a.rows - rn + 1) * (a.cols - cn + 1) := by omega
          have hgm := rowMajor_getElem? (a.rows - rn + 1) (a.cols - cn + 1)
            (row2 * (a.cols - cn + 1) + col2) hmlt
          have hdv : (row2 * (a.cols - cn + 1) + col2) / (a.cols - cn + 1) = row2 := by
            rw [Nat.mul_comm row2, Nat.mul_add_div hCn, Nat.div_eq_of_lt hcol2]
            omega
          have hmd : (row2 * (a.cols - cn + 1) + col2) % (a.cols - cn + 1) = col2 := by
            rw [Nat.mul_comm row2, Nat.mul_add_mod, Nat.mod_eq_of_lt hcol2]
          rw [hdv, hmd] at hgm
          simpa using hfirst _ hm _ hgm
        · intro rr cc
          rw [← h2]
          rfl
  · intro a2 hres
    by_cases hov : a.cols < cn ∨ a.rows < rn
    · rw [hover_eq hov] at hres
      injection hres with h1 h2
      exact h2.symm
    · rcases hff : findFlow a cn rn with _ | ⟨r, c⟩
      · rw [hfit_none hov hff] at hres
        injection hres with h1 h2
        exact h2.symm
      · rw [hfit_some hov r c hff] at hres
        simp at hres
  · intro hle1 hle2 hres row col hb1 hb2
    rcases hff : findFlow a cn rn with _ | ⟨r, c⟩
    · have hff2 := hff
      unfold findFlow at hff2
      have hnone := List.find?_eq_none.mp hff2
      have hmem : ((row, col) : Nat × Nat) ∈
          rowMajor (a.rows - rn + 1) (a.cols - cn + 1) := by
        rw [mem_rowMajor]
        omega
      simpa using hnone _ hmem
    · exfalso
      have := hfit_some (by omega) r c hff
      rw [this] at hres
      simp at hres

/-- Witness for C8: on the default 4×12 grid, a 2000×280 request needs 10 columns and
is refused with the allocator unchanged, while a 700×280 request is placed at the
origin with a 4×2-cell (880×280 px) region. -/
theorem c8_reserve_region_flow_spec_witness :
    ((0 : Nat) < c8Alloc.cell_w ∧ (0 : Nat) < c8Alloc.cell_h ∧
      (1 : Nat) ≤ 2000 ∧ (1 : Nat) ≤ 280 ∧
      (c8Alloc.cols < ceilDiv 2000 c8Alloc.cell_w ∨
        c8Alloc.rows < ceilDiv 280 c8Alloc.cell_h)) ∧
    reserve_region_flow c8Alloc 2000 280 "r1" none = (none, c8Alloc) ∧
    (reserve_region_flow c8Alloc 700 280 "r2" none).1.map
      (fun p => (p.x, p.y, p.width, p.height, p.regionId)) = some (0, 0, 880, 280, "r2") :=
  ⟨by decide,
   (c8_reserve_region_flow_spec c8Alloc 2000 280 "r1" none (by decide) (by decide)
      (by decide) (by decide)).1 (by decide),
   by decide⟩

theorem mcqOptionSpecs_idRole (question_id : String) :
    ∀ (opts : List String) (x1 x2 y1 y2 i : Nat),
      (mcqOptionSpecs question_id x1 opts i y1).map specIdRole =
        (mcqOptionSpecs question_id x2 opts i y2).map specIdRole := by
  intro opts
  induction opts with
  | nil => intros; rfl
  | cons o rest ih =>
      intro x1 x2 y1 y2 i
      simp only [mcqOptionSpecs, List.map_cons, List.cons.injEq]
      exact ⟨rfl, rfl, ih x1 x2 (y1 + 40) (y2 + 40) (i + 1)⟩

theorem mcqFallback_idRole (q : QuizQuestion) (question_id : String)
    (a1 a2 : GridAllocator) (rid1 rid2 : String) (s1 s2 : List ObjectSpec)
    (b1 b2 : GridAllocator)
    (h1 : mcqFallback q question_id a1 rid1 = (.ok s1, b1))
    (h2 : mcqFallback q question_id a2 rid2 = (.ok s2, b2)) :
    s1.map specIdRole = s2.map specIdRole := by
  simp only [mcqFallback] at h1 h2
  split at h1
  · simp at h1
  · split at h2
    · simp at h2
    · injection h1 with h1a h1b
      injection h2 with h2a h2b
      injection h1a with h1a
      injection h2a with h2a
      rw [← h1a, ← h2a]
      simp only [List.map_cons, List.cons.injEq]
      refine ⟨rfl, mcqOptionSpecs_idRole question_id q.options _ _ _ _ 0⟩

/-- C9: deterministic object ids. `draw_text` with no caller-supplied id derives its
id as the UUIDv5 of `"text-{text}-{color_token}"` over the fixed namespace, a pure
function of the arguments, so identical calls return identical ids; and the ids and
metadata roles of the objects produced by `draw_mcq_actions` for a given
`(question_id, options)` are identical across runs, whatever the allocator state or
fresh region id of each run. -/
theorem c9_deterministic_object_ids :
    (∀ args : DrawTextArgs, args.id = none →
      (draw_text args).id =
        uuid5 ASSISTANT_DRAWING_NAMESPACE
          ("text-" ++ args.text ++ "-" ++ args.color_token)) ∧
    (∀ (q : QuizQuestion) (qid : Option String) (tn zn : Option String)
        (a1 a2 : GridAllocator) (rid1 rid2 : String) (s1 s2 : List ObjectSpec)
        (b1 b2 : GridAllocator),
      draw_mcq_actions q qid tn zn a1 rid1 = (.ok s1, b1) →
      draw_mcq_actions q qid tn zn a2 rid2 = (.ok s2, b2) →
      s1.map specIdRole = s2.map specIdRole) := by
  constructor
  · intro args hid
    simp [draw_text, truthyStr, hid]
  · intro q qid tn zn a1 a2 rid1 rid2 s1 s2 b1 b2 h1 h2
    rcases htn : truthyStr tn with _ | tn2
    · simp only [draw_mcq_actions, htn] at h1 h2
      exact mcqFallback_idRole q (orOptStr qid "q1") a1 a2 rid1 rid2 s1 s2 b1 b2 h1 h2
    · rcases hzn : truthyStr zn with _ | zn2
      · simp only [draw_mcq_actions, htn, hzn] at h1 h2
        exact mcqFallback_idRole q (orOptStr qid "q1") a1 a2 rid1 rid2 s1 s2 b1 b2 h1 h2
      · rcases hrz : resolve_zone tn2 zn2 with _ | zc
        · simp only [draw_mcq_actions, htn, hzn, hrz] at h1 h2
          exact mcqFallback_idRole q (orOptStr qid "q1") a1 a2 rid1 rid2 s1 s2 b1 b2 h1 h2
        · simp only [draw_mcq_actions, htn, hzn, hrz] at h1 h2
          injection h1 with h1a h1b
          injection h2 with h2a h2b
          injection h1a with h1a
          injection h2a with h2a
          rw [← h1a, ← h2a]

/-- Witness for C9: a concrete `draw_text` id, and two `draw_mcq_actions` runs from
different allocator states and region ids that place the MCQ at different y
coordinates yet produce identical (id, role) lists. -/
theorem c9_deterministic_object_ids_witness :
    ((draw_text { text := "Hi", color_token := "accent" }).id =
      uuid5 ASSISTANT_DRAWING_NAMESPACE "text-Hi-accent") ∧
    (okSpecs (draw_mcq_actions c9Q (some "q7") none none {} "r1")).map specIdRole =
      (okSpecs (draw_mcq_actions c9Q (some "q7") none none c9A2 "r2")).map specIdRole ∧
    (okSpecs (draw_mcq_actions c9Q (some "q7") none none {} "r1")).map (fun s => s.y) ≠
      (okSpecs (draw_mcq_actions c9Q (some "q7") none none c9A2 "r2")).map (fun s => s.y) :=
  ⟨(c9_deterministic_object_ids).1 { text := "Hi", color_token := "accent" } rfl,
   (c9_deterministic_object_ids).2 c9Q (some "q7") none none {} c9A2 "r1" "r2"
     (okSpecs (draw_mcq_actions c9Q (some "q7") none none {} "r1"))
     (okSpecs (draw_mcq_actions c9Q (some "q7") none none c9A2 "r2"))
     (draw_mcq_actions c9Q (some "q7") none none {} "r1").2
     (draw_mcq_actions c9Q (some "q7") none none c9A2 "r2").2
     (by rfl) (by rfl),
   by decide⟩

theorem mcqOptionSpecs_length (qid : String) :
    ∀ (opts : List String) (x i y : Nat),
      (mcqOptionSpecs qid x opts i y).length = 2 * opts.length := by
  intro opts
  induction opts with
  | nil => intros; rfl
  | cons o rest ih =>
      intro x i y
      have h := ih x (i + 1) (y + 40)
      simp only [mcqOptionSpecs, List.length_cons, h, List.length_cons]
      omega

theorem mcqOptionSpecs_count_question (qid : String) :
    ∀ (opts : List String) (x i y : Nat),
      countRoleKind (mcqOptionSpecs qid x opts i y) "question" "text" = 0 := by
  intro opts
  induction opts with
  | nil => intros; rfl
  | cons o rest ih => intro x i y; exact ih x (i + 1) (y + 40)

theorem mcqOptionSpecs_count_selector (qid : String) :
    ∀ (opts : List String) (x i y : Nat),
      countRoleKind (mcqOptionSpecs qid x opts i y) "option_selector" "circle" =
        opts.length := by
  intro opts
  induction opts with
  | nil => intros; rfl
  | cons o rest ih => intro x i y; exact congrArg Nat.succ (ih x (i + 1) (y + 40))

theorem mcqOptionSpecs_count_label (qid : String) :
    ∀ (opts : List String) (x i y : Nat),
      countRoleKind (mcqOptionSpecs qid x opts i y) "option_label" "text" =
        opts.length := by
  intro opts
  induction opts with
  | nil => intros; rfl
  | cons o rest ih => intro x i y; exact congrArg Nat.succ (ih x (i + 1) (y + 40))

theorem mcqOptionSpecs_mem (qid : String) :
    ∀ (opts : List String) (x i y j : Nat) (o : String), opts[j]? = some o →
      (∃ s ∈ mcqOptionSpecs qid x opts i y,
        s.kind = some "circle" ∧ (s.metadata.getD {}).role = some "option_selector" ∧
        (s.metadata.getD {}).option_id = some (Int.ofNat (i + j))) ∧
      (∃ s ∈ mcqOptionSpecs qid x opts i y,
        s.kind = some "text" ∧ (s.metadata.getD {}).role = some "option_label" ∧
        (s.metadata.getD {}).option_id = some (Int.ofNat (i + j))) := by
  intro opts
  induction opts with
  | nil =>
      intro x i y j o hj
      simp at hj
  | cons o0 rest ih =>
      intro x i y j o hj
      cases j with
      | zero =>
          simp only [Nat.add_zero]
          constructor
          · exact ⟨_, List.mem_cons_self _ _, rfl, rfl, rfl⟩
          · exact ⟨_, List.mem_cons_of_mem _ (List.mem_cons_self _ _), rfl, rfl, rfl⟩
      | succ j0 =>
          have hidx : i + (j0 + 1) = i + 1 + j0 := by omega
          rw [hidx]
          obtain ⟨⟨s1, hs1, hp1⟩, ⟨s2, hs2, hp2⟩⟩ :=
            ih x (i + 1) (y + 40) j0 o (by simpa using hj)
          exact ⟨⟨s1, List.mem_cons_of_mem _ (List.mem_cons_of_mem _ hs1), hp1⟩,
                 ⟨s2, List.mem_cons_of_mem _ (List.mem_cons_of_mem _ hs2), hp2⟩⟩

theorem mcqZoneOptionSpecs_length (qid : String) (bx by0 zw st sd : Rat) :
    ∀ (opts : List String) (i : Nat) (yOff : Rat),
      (mcqZoneOptionSpecs qid bx by0 zw st sd opts i yOff).length = 2 * opts.length := by
  intro opts
  induction opts with
  | nil => intros; rfl
  | cons o rest ih =>
      intro i yOff
      have h := ih (i + 1) (yOff + st)
      simp only [mcqZoneOptionSpecs, List.length_cons, h]
      omega

theorem mcqZoneOptionSpecs_count_question (qid : String) (bx by0 zw st sd : Rat) :
    ∀ (opts : List String) (i : Nat) (yOff : Rat),
      countRoleKind (mcqZoneOptionSpecs qid bx by0 zw st sd opts i yOff)
        "question" "text" = 0 := by
  intro opts
  induction opts with
  | nil => intros; rfl
  | cons o rest ih => intro i yOff; exact ih (i + 1) (yOff + st)

theorem mcqZoneOptionSpecs_count_selector (qid : String) (bx by0 zw st sd : Rat) :
    ∀ (opts : List String) (i : Nat) (yOff : Rat),
      countRoleKind (mcqZoneOptionSpecs qid bx by0 zw st sd opts i yOff)
        "option_selector" "circle" = opts.length := by
  intro opts
  induction opts with
  | nil => intros; rfl
  | cons o rest ih => intro i yOff; exact congrArg Nat.succ (ih (i + 1) (yOff + st))

theorem mcqZoneOptionSpecs_count_label (qid : String) (bx by0 zw st sd : Rat) :
    ∀ (opts : List String) (i : Nat) (yOff : Rat),
      countRoleKind (mcqZoneOptionSpecs qid bx by0 zw st sd opts i yOff)
        "option_label" "text" = opts.length := by
  intro opts
  induction opts with
  | nil => intros; rfl
  | cons o rest ih => intro i yOff; exact congrArg Nat.succ (ih (i + 1) (yOff + st))

theorem mcqZoneOptionSpecs_mem (qid : String) (bx by0 zw st sd : Rat) :
    ∀ (opts : List String) (i : Nat) (yOff : Rat) (j : Nat) (o : String),
      opts[j]? = some o →
      (∃ s ∈ mcqZoneOptionSpecs qid bx by0 zw st sd opts i yOff,
        s.kind = some "circle" ∧ (s.metadata.getD {}).role = some "option_selector" ∧
        (s.metadata.getD {}).option_id = some (Int.ofNat (i + j))) ∧
      (∃ s ∈ mcqZoneOptionSpecs qid bx by0 zw st sd opts i yOff,
        s.kind = some "text" ∧ (s.metadata.getD {}).role = some "option_label" ∧
        (s.metadata.getD {}).option_id = some (Int.ofNat (i + j))) := by
  intro opts
  induction opts with
  | nil =>
      intro i yOff j o hj
      simp at hj
  | cons o0 rest ih =>
      intro i yOff j o hj
      cases j with
      | zero =>
          simp only [Nat.add_zero]
          constructor
          · exact ⟨_, List.mem_cons_self _ _, rfl, rfl, rfl⟩
          · exact ⟨_, List.mem_cons_of_mem _ (List.mem_cons_self _ _), rfl, rfl, rfl⟩
      | succ j0 =>
          have hidx : i + (j0 + 1) = i + 1 + j0 := by omega
          rw [hidx]
          obtain ⟨⟨s1, hs1, hp1⟩, ⟨s2, hs2, hp2⟩⟩ :=
            ih (i + 1) (yOff + st) j0 o (by simpa using hj)
          exact ⟨⟨s1, List.mem_cons_of_mem _ (List.mem_cons_of_mem _ hs1), hp1⟩,
                 ⟨s2, List.mem_cons_of_mem _ (List.mem_cons_of_mem _ hs2), hp2⟩⟩

/-- Shape of a successful `draw_mcq_actions` result, whichever placement branch ran:
one question text spec plus a (selector circle, label text) pair per option. -/
theorem draw_mcq_actions_specs_shape (q : QuizQuestion) (qid tn zn : Option String)
    (alloc : GridAllocator) (rid : String) (specs : List ObjectSpec)
    (alloc2 : GridAllocator)
    (hok : draw_mcq_actions q qid tn zn alloc rid = (.ok specs, alloc2)) :
    specs.length = 2 * q.options.length + 1 ∧
    countRoleKind specs "question" "text" = 1 ∧
    countRoleKind specs "option_selector" "circle" = q.options.length ∧
    countRoleKind specs "option_label" "text" = q.options.length ∧
    (∀ (j : Nat) (o : String), q.options[j]? = some o →
      (∃ s ∈ specs, s.kind = some "circle" ∧
        (s.metadata.getD {}).role = some "option_selector" ∧
        (s.metadata.getD {}).option_id = some (Int.ofNat j)) ∧
      (∃ s ∈ specs, s.kind = some "text" ∧
        (s.metadata.getD {}).role = some "option_label" ∧
        (s.metadata.getD {}).option_id = some (Int.ofNat j))) := by
  have hzone : ∀ zc : ZoneCoords, specs = mcqZoneSpecs q (orOptStr qid "q1") zc →
      specs.length = 2 * q.options.length + 1 ∧
      countRoleKind specs "question" "text" = 1 ∧
      countRoleKind specs "option_selector" "circle" = q.options.length ∧
      countRoleKind specs "option_label" "text" = q.options.length ∧
      (∀ (j : Nat) (o : String), q.options[j]? = some o →
        (∃ s ∈ specs, s.kind = some "circle" ∧
          (s.metadata.getD {}).role = some "option_selector" ∧
          (s.metadata.getD {}).option_id = some (Int.ofNat j)) ∧
        (∃ s ∈ specs, s.kind = some "text" ∧
          (s.metadata.getD {}).role = some "option_label" ∧
          (s.metadata.getD {}).option_id = some (Int.ofNat j))) := by
    intro zc hs
    subst hs
    refine ⟨?_, ?_, ?_, ?_, ?_⟩
    · exact congrArg Nat.succ (mcqZoneOptionSpecs_length _ _ _ _ _ _ q.options 0 _) |>.trans
        (by omega)
    · exact congrArg Nat.succ (mcqZoneOptionSpecs_count_question _ _ _ _ _ _ q.options 0 _)
    · exact mcqZoneOptionSpecs_count_selector _ _ _ _ _ _ q.options 0 _
    · exact mcqZoneOptionSpecs_count_label _ _ _ _ _ _ q.options 0 _
    · intro j o hj
      obtain ⟨⟨s1, hs1, hp1⟩, ⟨s2, hs2, hp2⟩⟩ :=
        mcqZoneOptionSpecs_mem (orOptStr qid "q1") _ _ _ _ _ q.options 0 _ j o hj
      simp only [Nat.zero_add] at hp1 hp2
      exact ⟨⟨s1, List.mem_cons_of_mem _ hs1, hp1⟩,
             ⟨s2, List.mem_cons_of_mem _ hs2, hp2⟩⟩
  have hfall : ∀ (x y : Nat),
      specs = ({ id := "mcq-" ++ orOptStr qid "q1" ++ "-text", kind := some "text",
                 x := some (Int.ofNat x), y := some (Int.ofNat y),
                 text := some q.question, fontSize := some 18, fill := some "#000000",
                 width := some 700,
                 metadata := some { source := some "assistant", role := some "question",
                                    question_id := some (orOptStr qid "q1"),
                                    groupId := some (orOptStr qid "q1") } } ::
               mcqOptionSpecs (orOptStr qid "q1") x q.options 0 (y + 50)) →
      specs.length = 2 * q.options.length + 1 ∧
      countRoleKind specs "question" "text" = 1 ∧
      countRoleKind specs "option_selector" "circle" = q.options.length ∧
      countRoleKind specs "option_label" "text" = q.options.length ∧
      (∀ (j : Nat) (o : String), q.options[j]? = some o →
        (∃ s ∈ specs, s.kind = some "circle" ∧
          (s.metadata.getD {}).role = some "option_selector" ∧
          (s.metadata.getD {}).option_id = some (Int.ofNat j)) ∧
        (∃ s ∈ specs, s.kind = some "text" ∧
          (s.metadata.getD {}).role = some "option_label" ∧
          (s.metadata.getD {}).option_id = some (Int.ofNat j))) := by
    intro x y hs
    subst hs
    refine ⟨?_, ?_, ?_, ?_, ?_⟩
    · exact congrArg Nat.succ (mcqOptionSpecs_length _ q.options x 0 (y + 50)) |>.trans
        (by omega)
    · exact congrArg Nat.succ (mcqOptionSpecs_count_question _ q.options x 0 (y + 50))
    · exact mcqOptionSpecs_count_selector _ q.options x 0 (y + 50)
    · exact mcqOptionSpecs_count_label _ q.options x 0 (y + 50)
    · intro j o hj
      obtain ⟨⟨s1, hs1, hp1⟩, ⟨s2, hs2, hp2⟩⟩ :=
        mcqOptionSpecs_mem (orOptStr qid "q1") q.options x 0 (y + 50) j o hj
      simp only [Nat.zero_add] at hp1 hp2
      exact ⟨⟨s1, List.mem_cons_of_mem _ hs1, hp1⟩,
             ⟨s2, List.mem_cons_of_mem _ hs2, hp2⟩⟩
  have hofall : ∀ (a0 : GridAllocator) (rid0 : String),
      mcqFallback q (orOptStr qid "q1") a0 rid0 = (.ok specs, alloc2) →
      specs.length = 2 * q.options.length + 1 ∧
      countRoleKind specs "question" "text" = 1 ∧
      countRoleKind specs "option_selector" "circle" = q.options.length ∧
      countRoleKind specs "option_label" "text" = q.options.length ∧
      (∀ (j : Nat) (o : String), q.options[j]? = some o →
        (∃ s ∈ specs, s.kind = some "circle" ∧
          (s.metadata.getD {}).role = some "option_selector" ∧
          (s.metadata.getD {}).option_id = some (Int.ofNat j)) ∧
        (∃ s ∈ specs, s.kind = some "text" ∧
          (s.metadata.getD {}).role = some "option_label" ∧
          (s.metadata.getD {}).option_id = some (Int.ofNat j))) := by
    intro a0 rid0 hfb
    simp only [mcqFallback] at hfb
    split at hfb
    · simp at hfb
    · injection hfb with hfa hfbb
      injection hfa with hfa
      exact hfall _ _ hfa.symm
  rcases htn : truthyStr tn with _ | tn2
  · simp only [draw_mcq_actions, htn] at hok
    exact hofall alloc rid hok
  · rcases hzn : truthyStr zn with _ | zn2
    · simp only [draw_mcq_actions, htn, hzn] at hok
      exact hofall alloc rid hok
    · rcases hrz : resolve_zone tn2 zn2 with _ | zc
      · simp only [draw_mcq_actions, htn, hzn, hrz] at hok
        exact hofall alloc rid hok
      · simp only [draw_mcq_actions, htn, hzn, hrz] at hok
        injection hok with hoka hokb
        injection hoka with hoka
        exact hzone zc hoka.symm

/-- C4 as amended: for every `ask_question` tool call with valid `question_data`, the
whiteboard actions are generated by the internal `draw_mcq_actions` skill (the LLM-supplied
`whiteboard_actions` argument never influences the result), the outbound envelope
has `content_type "message"` with one `ADD_OBJECTS` action containing
`2·#options + 1` object specs — NINE for a 4-option question, not eleven — namely
one text spec with metadata role "question" and, per option, a (circle, text) pair
with roles "option_selector"/"option_label"; afterwards the context holds the
question as `current_quiz_question` and `last_pedagogical_action` is "asked". -/
theorem c4_ask_question_dispatch (ctx : TutorContext) (args : AskQuestionArgs)
    (q : QuizQuestion) (qidF rid : String) (alloc : GridAllocator)
    (specs : List ObjectSpec) (alloc2 : GridAllocator)
    (hq : args.question_data = some q)
    (hdraw : draw_mcq_actions q (some qidF) args.template args.zone alloc rid =
      (.ok specs, alloc2)) :
    ∃ env ctx3 snap row,
      dispatch_ask_question ctx args qidF alloc rid =
        .okSent env ctx3 snap (some row) alloc2 ∧
      env.content_type = "message" ∧
      env.whiteboard_actions = some [WBAction.ADD_OBJECTS specs] ∧
      specs.length = 2 * q.options.length + 1 ∧
      (q.options.length = 4 → specs.length = 9) ∧
      countRoleKind specs "question" "text" = 1 ∧
      countRoleKind specs "option_selector" "circle" = q.options.length ∧
      countRoleKind specs "option_label" "text" = q.options.length ∧
      (∀ (j : Nat) (o : String), q.options[j]? = some o →
        (∃ s ∈ specs, s.kind = some "circle" ∧
          (s.metadata.getD {}).role = some "option_selector" ∧
          (s.metadata.getD {}).option_id = some (Int.ofNat j)) ∧
        (∃ s ∈ specs, s.kind = some "text" ∧
          (s.metadata.getD {}).role = some "option_label" ∧
          (s.metadata.getD {}).option_id = some (Int.ofNat j))) ∧
      ctx3.current_quiz_question = some q ∧
      ctx3.last_pedagogical_action = some "asked" ∧
      (∀ wb, dispatch_ask_question ctx { args with whiteboard_actions := wb } qidF alloc rid =
        dispatch_ask_question ctx args qidF alloc rid) := by
  obtain ⟨hlen, hcq, hcs, hcl, hmem⟩ :=
    draw_mcq_actions_specs_shape q (some qidF) args.template args.zone alloc rid specs
      alloc2 hdraw
  have hne : specs ≠ [] := by
    intro h0
    rw [h0] at hlen
    simp at hlen
  have hindep : ∀ wb,
      dispatch_ask_question ctx { args with whiteboard_actions := wb } qidF alloc rid =
        dispatch_ask_question ctx args qidF alloc rid := fun wb => rfl
  rcases hdisp : dispatch_ask_question ctx args qidF alloc rid with
    env0 | ⟨env0, ctx30, snap0, msg0, alloc20⟩
  · exfalso
    simp only [dispatch_ask_question, hq, hdraw] at hdisp
    rw [if_pos hne] at hdisp
    exact AskResult.noConfusion hdisp
  · have hred := hdisp
    simp only [dispatch_ask_question, hq, hdraw] at hred
    rw [if_pos hne] at hred
    injection hred with he hc hs hm ha
    rw [← hm, ← ha] at hdisp ⊢
    refine ⟨env0, ctx30, snap0, _, rfl, ?_, ?_, hlen, fun h4 => by rw [hlen, h4],
      hcq, hcs, hcl, hmem, ?_, ?_, fun wb => (hindep wb).trans hdisp⟩
    · rw [← he]
    · rw [← he]
    · rw [← hc]
      rfl
    · rw [← hc]
      rfl

/-- C4 counterexample: dispatching a valid 4-option `ask_question` produces one
`ADD_OBJECTS` whiteboard action containing NINE object specs, not eleven as the
claim states (1 question text + 4 × (circle selector + text label) = 9). -/
theorem c4_ask_question_counterexample :
    (dispatch_ask_question c4Ctx c4Args "ab12cd34" {} "r9").envelope.content_type =
      "message" ∧
    wbObjectCounts
      (dispatch_ask_question c4Ctx c4Args "ab12cd34" {} "r9").envelope.whiteboard_actions =
      some [9] ∧
    wbObjectCounts
      (dispatch_ask_question c4Ctx c4Args "ab12cd34" {} "r9").envelope.whiteboard_actions ≠
      some [11] := by
  refine ⟨rfl, by decide, by decide⟩

/-- Witness for C4 at the concrete 4-option question (allocator fallback path):
the amended theorem instantiated with the drawing equation discharged by computation. -/
theorem c4_ask_question_dispatch_witness :
    (c4Args.question_data = some
      { question := "Inputs of photosynthesis?",
        options := ["CO2+H2O+light", "Glucose", "Oxygen", "Heat"],
        correct_answer_index := 0,
        explanation := "CO2, water and light are consumed.",
        difficulty := "Easy",
        related_section := "Photosynthesis" }) ∧
    (∃ env ctx3 snap row,
      dispatch_ask_question c4Ctx c4Args "ab12cd34" {} "r9" =
        .okSent env ctx3 snap (some row)
          (draw_mcq_actions
            { question := "Inputs of photosynthesis?",
              options := ["CO2+H2O+light", "Glucose", "Oxygen", "Heat"],
              correct_answer_index := 0,
              explanation := "CO2, water and light are consumed.",
              difficulty := "Easy",
              related_section := "Photosynthesis" }
            (some "ab12cd34") c4Args.template c4Args.zone {} "r9").2 ∧
      env.content_type = "message" ∧
      env.whiteboard_actions = some [WBAction.ADD_OBJECTS
        (okSpecs (draw_mcq_actions
          { question := "Inputs of photosynthesis?",
            options := ["CO2+H2O+light", "Glucose", "Oxygen", "Heat"],
            correct_answer_index := 0,
            explanation := "CO2, water and light are consumed.",
            difficulty := "Easy",
            related_section := "Photosynthesis" }
          (some "ab12cd34") c4Args.template c4Args.zone {} "r9"))] ∧
      (okSpecs (draw_mcq_actions
          { question := "Inputs of photosynthesis?",
            options := ["CO2+H2O+light", "Glucose", "Oxygen", "Heat"],
            correct_answer_index := 0,
            explanation := "CO2, water and light are consumed.",
            difficulty := "Easy",
            related_section := "Photosynthesis" }
          (some "ab12cd34") c4Args.template c4Args.zone {} "r9")).length =
        2 * (["CO2+H2O+light", "Glucose", "Oxygen", "Heat"] : List String).length + 1 ∧
      ((["CO2+H2O+light", "Glucose", "Oxygen", "Heat"] : List String).length = 4 →
        (okSpecs (draw_mcq_actions
          { question := "Inputs of photosynthesis?",
            options := ["CO2+H2O+light", "Glucose", "Oxygen", "Heat"],
            correct_answer_index := 0,
            explanation := "CO2, water and light are consumed.",
            difficulty := "Easy",
            related_section := "Photosynthesis" }
          (some "ab12cd34") c4Args.template c4Args.zone {} "r9")).length = 9) ∧
      countRoleKind (okSpecs (draw_mcq_actions
          { question := "Inputs of photosynthesis?",
            options := ["CO2+H2O+light", "Glucose", "Oxygen", "Heat"],
            correct_answer_index := 0,
            explanation := "CO2, water and light are consumed.",
            difficulty := "Easy",
            related_section := "Photosynthesis" }
          (some "ab12cd34") c4Args.template c4Args.zone {} "r9")) "question" "text" = 1 ∧
      countRoleKind (okSpecs (draw_mcq_actions
          { question := "Inputs of photosynthesis?",
            options := ["CO2+H2O+light", "Glucose", "Oxygen", "Heat"],
            correct_answer_index := 0,
            explanation := "CO2, water and light are consumed.",
            difficulty := "Easy",
            related_section := "Photosynthesis" }
          (some "ab12cd34") c4Args.template c4Args.zone {} "r9")) "option_selector"
        "circle" = (["CO2+H2O+light", "Glucose", "Oxygen", "Heat"] : List String).length ∧
      countRoleKind (okSpecs (draw_mcq_actions
          { question := "Inputs of photosynthesis?",
            options := ["CO2+H2O+light", "Glucose", "Oxygen", "Heat"],
            correct_answer_index := 0,
            explanation := "CO2, water and light are consumed.",
            difficulty := "Easy",
            related_section := "Photosynthesis" }
          (some "ab12cd34") c4Args.template c4Args.zone {} "r9")) "option_label"
        "text" = (["CO2+H2O+light", "Glucose", "Oxygen", "Heat"] : List String).length ∧
      (∀ (j : Nat) (o : String),
        (["CO2+H2O+light", "Glucose", "Oxygen", "Heat"] : List String)[j]? = some o →
        (∃ s ∈ okSpecs (draw_mcq_actions
            { question := "Inputs of photosynthesis?",
              options := ["CO2+H2O+light", "Glucose", "Oxygen", "Heat"],
              correct_answer_index := 0,
              explanation := "CO2, water and light are consumed.",
              difficulty := "Easy",
              related_section := "Photosynthesis" }
            (some "ab12cd34") c4Args.template c4Args.zone {} "r9"),
          s.kind = some "circle" ∧
          (s.metadata.getD {}).role = some "option_selector" ∧
          (s.metadata.getD {}).option_id = some (Int.ofNat j)) ∧
        (∃ s ∈ okSpecs (draw_mcq_actions
            { question := "Inputs of photosynthesis?",
              options := ["CO2+H2O+light", "Glucose", "Oxygen", "Heat"],
              correct_answer_index := 0,
              explanation := "CO2, water and light are consumed.",
              difficulty := "Easy",
              related_section := "Photosynthesis" }
            (some "ab12cd34") c4Args.template c4Args.zone {} "r9"),
          s.kind = some "text" ∧
          (s.metadata.getD {}).role = some "option_label" ∧
          (s.metadata.getD {}).option_id = some (Int.ofNat j))) ∧
      ctx3.current_quiz_question = some
        { question := "Inputs of photosynthesis?",
          options := ["CO2+H2O+light", "Glucose", "Oxygen", "Heat"],
          correct_answer_index := 0,
          explanation := "CO2, water and light are consumed.",
          difficulty := "Easy",
          related_section := "Photosynthesis" } ∧
      ctx3.last_pedagogical_action = some "asked" ∧
      (∀ wb, dispatch_ask_question c4Ctx { c4Args with whiteboard_actions := wb }
          "ab12cd34" {} "r9" =
        dispatch_ask_question c4Ctx c4Args "ab12cd34" {} "r9")) :=
  ⟨rfl,
   c4_ask_question_dispatch c4Ctx c4Args _ "ab12cd34" "r9" {}
     (okSpecs (draw_mcq_actions
       { question := "Inputs of photosynthesis?",
         options := ["CO2+H2O+light", "Glucose", "Oxygen", "Heat"],
         correct_answer_index := 0,
         explanation := "CO2, water and light are consumed.",
         difficulty := "Easy",
         related_section := "Photosynthesis" }
       (some "ab12cd34") c4Args.template c4Args.zone {} "r9"))
     (draw_mcq_actions
       { question := "Inputs of photosynthesis?",
         options := ["CO2+H2O+light", "Glucose", "Oxygen", "Heat"],
         correct_answer_index := 0,
         explanation := "CO2, water and light are consumed.",
         difficulty := "Easy",
         related_section := "Photosynthesis" }
       (some "ab12cd34") c4Args.template c4Args.zone {} "r9").2
     rfl (by rfl)⟩

theorem update_user_model_by_correctness (st : UserModelState) (topic : String)
    (b : Bool) (details : Option String) (now : Nat) :
    ∃ c2, lookupConcept (update_user_model st topic
        (if b then .correct else .incorrect) details now).concepts topic = some c2 ∧
      c2.last_interaction_outcome = some (if b then "correct" else "incorrect") ∧
      c2.alpha = (if b then (conceptOr st topic).alpha + 1
        else (conceptOr st topic).alpha) ∧
      c2.beta = (if b then (conceptOr st topic).beta
        else (conceptOr st topic).beta + 1) ∧
      c2.attempts = (conceptOr st topic).attempts + 1 := by
  cases b
  · exact ⟨_, lookup_setConcept _ _ _, rfl, rfl, rfl, rfl⟩
  · exact ⟨_, lookup_setConcept _ _ _, rfl, rfl, rfl, rfl⟩

/-- C1: when the last user event is an `answer` message and a quiz question is
pending (with the answer index and the stored correct index within the option
range), the turn is evaluated deterministically with no LLM call: exactly one
feedback envelope (`content_type "feedback"`) carrying the whiteboard actions
generated by `evaluate_quiz` is sent, the answer is correct iff `answer_index`
equals the stored `correct_answer_index`, the learner model for the
topic is updated with outcome correct/incorrect, and `current_quiz_question` is
cleared to `null`. The `TurnResult.sent` constructor is the deterministic branch
that returns before the LLM call of the executor. -/
theorem c1_deterministic_answer_evaluation (ctx : TutorContext) (now : Nat)
    (q : QuizQuestion) (d : AnswerData) (i : Int)
    (hq : ctx.current_quiz_question = some q)
    (hlast : ctx.history.getLast? =
      some { role := "user", content := .event "answer" (some d) })
    (hi : d.answer_index = some i)
    (h0 : 0 ≤ i) (hlt : i < (q.options.length : Int))
    (hc0 : 0 ≤ q.correct_answer_index)
    (hclt : q.correct_answer_index < (q.options.length : Int)) :
    ∃ ctx2 fb acts env ctx3,
      evaluate_quiz ctx i d.question_id now = .ok (ctx2, fb, acts) ∧
      run_executor_turn_det ctx now = .sent env ctx3 ∧
      env = { content_type := "feedback", data := .feedbackData fb,
              user_model_state := ctx2.user_model_state, whiteboard_actions := acts } ∧
      acts ≠ none ∧
      ctx3 = { ctx2 with history := ctx2.history ++
        [{ role := "assistant", content := .toolCall "feedback" }] } ∧
      ctx3.current_quiz_question = none ∧
      (∃ item, fb.feedback_items = [item] ∧
        item.is_correct = (i == q.correct_answer_index)) ∧
      (∃ c2, lookupConcept ctx3.user_model_state.concepts
          (orStr q.related_section "general") = some c2 ∧
        c2.last_interaction_outcome =
          some (if i == q.correct_answer_index then "correct" else "incorrect") ∧
        c2.alpha = (if i == q.correct_answer_index
          then (conceptOr ctx.user_model_state (orStr q.related_section "general")).alpha + 1
          else (conceptOr ctx.user_model_state (orStr q.related_section "general")).alpha) ∧
        c2.beta = (if i == q.correct_answer_index
          then (conceptOr ctx.user_model_state (orStr q.related_section "general")).beta
          else
            (conceptOr ctx.user_model_state (orStr q.related_section "general")).beta + 1) ∧
        c2.attempts =
          (conceptOr ctx.user_model_state (orStr q.related_section "general")).attempts +
            1) := by
  have hni : ¬ i < 0 := by omega
  have hnb : ¬ ((q.options.length : Int) ≤ i) := by omega
  have hiN : i.toNat < q.options.length := by omega
  have hcN : q.correct_answer_index.toNat < q.options.length := by omega
  have hsel : pyIndex q.options i = some (q.options.get ⟨i.toNat, hiN⟩) := by
    rw [pyIndex, if_pos h0, List.get?_eq_getElem?]
    exact List.getElem?_eq_some_iff.mpr ⟨hiN, rfl⟩
  have hcor : pyIndex q.options q.correct_answer_index =
      some (q.options.get ⟨q.correct_answer_index.toNat, hcN⟩) := by
    rw [pyIndex, if_pos hc0, List.get?_eq_getElem?]
    exact List.getElem?_eq_some_iff.mpr ⟨hcN, rfl⟩
  rcases heval : evaluate_quiz ctx i d.question_id now with err | ⟨ctx2, fb, acts⟩
  · exfalso
    simp only [evaluate_quiz, hq, if_neg hni, if_neg hnb, hsel, hcor] at heval
    exact Except.noConfusion heval
  · have hcomp := heval
    simp only [evaluate_quiz, hq, if_neg hni, if_neg hnb, hsel, hcor] at hcomp
    injection hcomp with hcomp
    rw [Prod.mk.injEq, Prod.mk.injEq] at hcomp
    obtain ⟨h1, h2, h3⟩ := hcomp
    rcases hturn : run_executor_turn_det ctx now with ⟨env, ctx3⟩ | _
    · have hturn2 := hturn
      simp only [run_executor_turn_det, hlast, hq, hi, heval, beq_self_eq_true,
        if_true, Option.getD_some] at hturn2
      injection hturn2 with henv hctx3
      refine ⟨ctx2, fb, acts, env, ctx3, rfl, rfl, henv.symm, ?_, hctx3.symm, ?_, ?_, ?_⟩
      · rw [← h3]
        exact Option.some_ne_none _
      · rw [← hctx3, ← h1]
      · rw [← h2]
        exact ⟨_, rfl, rfl⟩
      · have hums : ctx3.user_model_state.concepts =
            (update_user_model ctx.user_model_state (orStr q.related_section "general")
              (if i == q.correct_answer_index then .correct else .incorrect)
              (some ("Answered MCQ \x27" ++ q.question.take 50 ++
                "...\x27 with option \x27" ++ q.options.get ⟨i.toNat, hiN⟩ ++ "\x27."))
              now).concepts := by
          rw [← hctx3, ← h1]
        rw [hums]
        exact update_user_model_by_correctness ctx.user_model_state
          (orStr q.related_section "general") (i == q.correct_answer_index) _ now
    · exfalso
      simp only [run_executor_turn_det, hlast, hq, hi, heval, beq_self_eq_true,
        if_true, Option.getD_some] at hturn
      exact TurnResult.noConfusion hturn

/-- Witness for C1 at the concrete correct answer: the theorem applied with every
hypothesis discharged by computation, plus the concrete evaluation of the turn. -/
theorem c1_deterministic_answer_evaluation_witness :
    (c1Ctx.current_quiz_question = some c1Q ∧
      c1Ctx.history.getLast? = some { role := "user",
                                      content := .event "answer"
                                        (some { answer_index := some 1 }) } ∧
      ({ answer_index := some 1 } : AnswerData).answer_index = some 1 ∧
      (0 : Int) ≤ 1 ∧ (1 : Int) < (c1Q.options.length : Int) ∧
      (0 : Int) ≤ c1Q.correct_answer_index ∧
      c1Q.correct_answer_index < (c1Q.options.length : Int)) ∧
    (∃ ctx2 fb acts env ctx3,
      evaluate_quiz c1Ctx 1 ({ answer_index := some 1 } : AnswerData).question_id 7 =
        .ok (ctx2, fb, acts) ∧
      run_executor_turn_det c1Ctx 7 = .sent env ctx3 ∧
      env = { content_type := "feedback", data := .feedbackData fb,
              user_model_state := ctx2.user_model_state, whiteboard_actions := acts } ∧
      acts ≠ none ∧
      ctx3 = { ctx2 with history := ctx2.history ++
        [{ role := "assistant", content := .toolCall "feedback" }] } ∧
      ctx3.current_quiz_question = none ∧
      (∃ item, fb.feedback_items = [item] ∧
        item.is_correct = ((1 : Int) == c1Q.correct_answer_index)) ∧
      (∃ c2, lookupConcept ctx3.user_model_state.concepts
          (orStr c1Q.related_section "general") = some c2 ∧
        c2.last_interaction_outcome =
          some (if (1 : Int) == c1Q.correct_answer_index then "correct"
            else "incorrect") ∧
        c2.alpha = (if (1 : Int) == c1Q.correct_answer_index
          then (conceptOr c1Ctx.user_model_state
            (orStr c1Q.related_section "general")).alpha + 1
          else (conceptOr c1Ctx.user_model_state
            (orStr c1Q.related_section "general")).alpha) ∧
        c2.beta = (if (1 : Int) == c1Q.correct_answer_index
          then (conceptOr c1Ctx.user_model_state
            (orStr c1Q.related_section "general")).beta
          else (conceptOr c1Ctx.user_model_state
            (orStr c1Q.related_section "general")).beta + 1) ∧
        c2.attempts = (conceptOr c1Ctx.user_model_state
          (orStr c1Q.related_section "general")).attempts + 1)) ∧
    ((run_executor_turn_det c1Ctx 7).sentEnv?.map fun e => e.content_type) =
      some "feedback" ∧
    ((run_executor_turn_det c1Ctx 7).sentCtx?.map fun c => c.current_quiz_question) =
      some none ∧
    ((run_executor_turn_det c1Ctx 7).sentCtx?.map fun c =>
      (lookupConcept c.user_model_state.concepts "Photosynthesis").map fun cc =>
        (cc.alpha, cc.beta, cc.attempts)) = some (some (3, 1, 2)) :=
  ⟨⟨rfl, rfl, rfl, by decide, by decide, by decide, by decide⟩,
   c1_deterministic_answer_evaluation c1Ctx 7 c1Q { answer_index := some 1 } 1
     rfl rfl rfl (by decide) (by decide) (by decide) (by decide),
   by decide, by decide, by decide⟩

/-- C3 counterexample: with a pending 4-option question and an `answer` event whose
index is 7, the deterministic path sends a structured error envelope whose code is
`ANSWER_EVAL_INPUT_ERROR`, not `TOOL_INPUT_VALIDATION_ERROR` as the claim states
(that code belongs to the LLM tool-dispatch handler, not the answer-event path);
the context is returned unchanged (question preserved, α and β untouched). -/
theorem c3_error_code_counterexample :
    ((run_executor_turn_det c3Ctx 0).sentEnv?.map fun e => e.content_type) =
      some "error" ∧
    ((run_executor_turn_det c3Ctx 0).sentEnv?.bind envErrorCode) =
      some "ANSWER_EVAL_INPUT_ERROR" ∧
    ((run_executor_turn_det c3Ctx 0).sentEnv?.bind envErrorCode) ≠
      some "TOOL_INPUT_VALIDATION_ERROR" ∧
    (run_executor_turn_det c3Ctx 0).sentCtx? = some c3Ctx ∧
    (match evaluate_quiz c3Ctx 7 none 0 with
      | .error (.toolInputError msg) => some msg
      | _ => none) =
      some "Selected answer index is out of bounds for question options" := by
  refine ⟨by decide, by decide, by decide, by decide, by decide⟩

/-- C3 as amended: for every answer event whose index lies outside the pending
option range of the pending question, `evaluate_quiz` raises `ToolInputError` before any state
change, and the client receives a structured error envelope with code
`ANSWER_EVAL_INPUT_ERROR` (not `TOOL_INPUT_VALIDATION_ERROR`); the deterministic
path returns the context unchanged, so `current_quiz_question` and the stored
α/β are preserved. -/
theorem c3_out_of_range_answer_amended (ctx : TutorContext) (now : Nat)
    (q : QuizQuestion) (d : AnswerData) (i : Int)
    (hq : ctx.current_quiz_question = some q)
    (hlast : ctx.history.getLast? =
      some { role := "user", content := .event "answer" (some d) })
    (hi : d.answer_index = some i)
    (hout : i < 0 ∨ (q.options.length : Int) ≤ i) :
    (∃ msg, evaluate_quiz ctx i d.question_id now = .error (.toolInputError msg)) ∧
    (∃ msg, run_executor_turn_det ctx now =
      .sent (errorEnvelope ctx.user_model_state "Error evaluating answer."
        "ANSWER_EVAL_INPUT_ERROR" (some msg)) ctx) := by
  have herr : ∃ msg, evaluate_quiz ctx i d.question_id now =
      .error (.toolInputError msg) := by
    rcases hout with hneg | hge
    · exact ⟨"Invalid arguments for evaluate_quiz", by rw [evaluate_quiz, if_pos hneg]⟩
    · have hni : ¬ i < 0 := by
        have hlen : (0 : Int) ≤ (q.options.length : Int) := by positivity
        omega
      refine ⟨"Selected answer index is out of bounds for question options", ?_⟩
      rw [evaluate_quiz, if_neg hni, hq]
      simp only [if_pos hge]
  obtain ⟨msg, hmsg⟩ := herr
  refine ⟨⟨msg, hmsg⟩, ⟨msg, ?_⟩⟩
  simp only [run_executor_turn_det, hlast, hq, hi, hmsg, beq_self_eq_true, if_true,
    Option.getD_some]

/-- Witness for the amended C3 at the concrete out-of-range index 7: the theorem
applied with its hypotheses discharged by computation. -/
theorem c3_out_of_range_answer_amended_witness :
    (c3Ctx.current_quiz_question = some c3Q ∧
      c3Ctx.history.getLast? = some { role := "user",
                                      content := .event "answer"
                                        (some { answer_index := some 7 }) } ∧
      ({ answer_index := some 7 } : AnswerData).answer_index = some 7 ∧
      ((7 : Int) < 0 ∨ (c3Q.options.length : Int) ≤ 7)) ∧
    (∃ msg, evaluate_quiz c3Ctx 7
        ({ answer_index := some 7 } : AnswerData).question_id 0 =
      .error (.toolInputError msg)) ∧
    (∃ msg, run_executor_turn_det c3Ctx 0 =
      .sent (errorEnvelope c3Ctx.user_model_state "Error evaluating answer."
        "ANSWER_EVAL_INPUT_ERROR" (some msg)) c3Ctx) :=
  ⟨⟨rfl, rfl, rfl, by decide⟩,
   (c3_out_of_range_answer_amended c3Ctx 0 c3Q { answer_index := some 7 } 7
     rfl rfl rfl (by decide)).1,
   (c3_out_of_range_answer_amended c3Ctx 0 c3Q { answer_index := some 7 } 7
     rfl rfl rfl (by decide)).2⟩

end Tutor

